import Mathlib

/-!
Shallow embedding of the teleporter relay engine (Rust) in Lean 4,
with theorems settling the frozen claims C1..C10.

Each definition is translated from the named Rust source location.
External collaborators (Telegram client, remote OneBot adapters, media
transcoders, the SQL driver) are modelled as pure oracle functions in an
`Env` record; the persisted tables and in-memory caches are explicit
state.  Machine integers are modelled as `Int`/`Nat`; the only place
where overflow matters (the atomic `echo` counter, a `u64`) carries an
explicit `% 2^64`.
-/

namespace Teleporter

/-! ## Common data model (src/common.rs) -/

/-- `Platform` from src/common.rs. -/
inductive Platform
  | telegram
  | qq
  | wechat
  deriving DecidableEq, Repr

/-- `Endpoint` from src/common.rs: one remote bot account. -/
structure Endpoint where
  platform : Platform
  id : String
  deriving DecidableEq, Repr

/-- `ChatType` from src/common.rs. -/
inductive ChatType
  | private_
  | group
  deriving DecidableEq, Repr

/-- `DeliveryStatus` from src/common.rs. -/
inductive DeliveryStatus
  | pending
  | failed
  | sent
  | recalled
  deriving DecidableEq, Repr

/-! ## C1: WebSocket handshake authentication
    (src/src/onebot/onebot_pylon.rs, `OnebotPylon::accept_connection`).

    The handshake callback reads the `Authorization`, `X-Self-ID` and
    `User-Agent` headers (each `Option String` — `None` means absent),
    compares the authorization header against the configured
    `bearer = token.map (fun t => "Bearer " ++ t)` (from `OnebotPylon::new`),
    and rejects with 401 / 400 by setting the response status before
    returning an error. -/

/-- The headers of one inbound WebSocket handshake request that the
callback in `accept_connection` inspects.  `none` models an absent
header. -/
structure HandshakeHeaders where
  authorization : Option String
  xSelfId : Option String
  userAgent : Option String
  deriving DecidableEq, Repr

/-- Result of the handshake callback: either the connection is accepted
and named by an endpoint, or it is rejected with the HTTP status code
the callback stores on the response. -/
inductive HandshakeResult
  | accepted (endpoint : Endpoint)
  | rejected (status : Nat)
  deriving DecidableEq, Repr

/-- Platform inference from the `User-Agent` header
(`accept_connection`, lines 194-198): prefix `LLOneBot` → QQ, prefix
`WeChat` → WeChat, anything else → QQ. -/
def platformOfUserAgent (ua : String) : Platform :=
  if ua.startsWith "LLOneBot" then Platform.qq
  else if ua.startsWith "WeChat" then Platform.wechat
  else Platform.qq

/-- `bearer` field computed in `OnebotPylon::new` (line 52):
`config.token.map(|token| format!("Bearer {}", token))`. -/
def bearerOfToken (token : Option String) : Option String :=
  token.map (fun t => "Bearer " ++ t)

/-- The handshake callback of `OnebotPylon::accept_connection`
(lines 167-206), translated branch by branch:
1. `auth_header != self.bearer` → status 401, reject;
2. `x_self_id.is_none() || user_agent.is_none()` → status 400, reject;
3. otherwise accept with endpoint `(platform-from-UA, X-Self-ID)`. -/
def acceptConnection (token : Option String) (h : HandshakeHeaders) :
    HandshakeResult :=
  if h.authorization ≠ bearerOfToken token then
    HandshakeResult.rejected 401
  else if h.xSelfId.isNone ∨ h.userAgent.isNone then
    HandshakeResult.rejected 400
  else
    HandshakeResult.accepted
      { platform := platformOfUserAgent (h.userAgent.getD "")
        id := h.xSelfId.getD "" }

/-- Whether a handshake result is an acceptance. -/
def HandshakeResult.isAccepted : HandshakeResult → Bool
  | HandshakeResult.accepted _ => true
  | HandshakeResult.rejected _ => false

/-! ## C3: echo generation and response correlation
    (src/src/onebot/protocol/request.rs `generate_echo`,
     src/src/onebot/onebot_pylon.rs `OnebotPylon::handle_message`). -/

/-- `generate_echo` (request.rs lines 226-229): a static `AtomicU64`
counter starting at 1; `fetch_add(1)` returns the previous value, so the
n-th call (0-based) returns `(1 + n)` wrapped at `2^64`. -/
def generateEcho (n : Nat) : Nat :=
  (1 + n) % 2 ^ 64

/-- The pending-response table `echo → one-shot sender`
(`ResponsePendingChannal`); a `HashMap` modelled as a function, with the
waiter's one-shot sender modelled as a numeric token. -/
def PendingMap : Type := String → Option Nat

/-- `OnebotPylon::handle_message`, `Payload::Response` arm (lines
294-301): `pending.lock().await.remove(&response.echo)` and, when an
entry was present, deliver the response to that waiter.  Returns the
updated table together with the list of (waiter, echo) deliveries
performed. -/
def handleResponse (pending : PendingMap) (echo : String) :
    PendingMap × List (Nat × String) :=
  match pending echo with
  | some w => (fun e => if e = echo then none else pending e, [(w, echo)])
  | none => (pending, [])

/-! ## C8: index-writer commit policy
    (src/src/telegram/index_service.rs, `IndexService::new`, the
    spawned writer loop, lines 90-126). -/

/-- `COMMIT_RATE` (index_service.rs line 23). -/
def COMMIT_RATE : Nat := 100

/-- `COMMIT_TIME` in milliseconds (index_service.rs line 25:
`Duration::from_secs(30)`). -/
def COMMIT_TIME_MS : Nat := 30000

/-- State of the index writer loop: documents added since the last
commit (`added_docs`) and the time of the last commit
(`commit_timestamp`, an instant in milliseconds). -/
structure WriterState where
  addedDocs : Nat
  commitTimestamp : Nat
  deriving DecidableEq, Repr

/-- One input consumed by the writer loop's `select!`: either a document
from the doc channel (`addOk` records whether `add_document` succeeded)
or an explicit commit request carrying an acknowledgement channel. -/
inductive WriterInput
  | doc (addOk : Bool)
  | commitRequest
  deriving DecidableEq, Repr

/-- Outcome of one iteration of the writer loop. -/
structure WriterStep where
  state : WriterState
  committed : Bool
  acked : Bool
  terminated : Bool
  deriving DecidableEq, Repr

/-- One iteration of the writer loop (index_service.rs lines 94-125),
at current instant `now` (milliseconds):
* document arm: on success `added_docs += 1`; then commit iff
  `added_docs > COMMIT_RATE || commit_timestamp.elapsed() > COMMIT_TIME`,
  resetting the counter and timestamp;
* commit-request arm: commit, acknowledge, break. -/
def writerStep (s : WriterState) (now : Nat) (input : WriterInput) :
    WriterStep :=
  match input with
  | WriterInput.doc addOk =>
      if s.addedDocs + (if addOk then 1 else 0) > COMMIT_RATE ∨
          now - s.commitTimestamp > COMMIT_TIME_MS then
        { state := { addedDocs := 0, commitTimestamp := now }
          committed := true, acked := false, terminated := false }
      else
        { state := { s with addedDocs := s.addedDocs + (if addOk then 1 else 0) }
          committed := false, acked := false, terminated := false }
  | WriterInput.commitRequest =>
      { state := s, committed := true, acked := true, terminated := true }

/-- Run the writer loop over a list of timestamped inputs, counting
commits (used to exhibit concrete schedules). -/
def writerRun (s : WriterState) : List (Nat × WriterInput) → WriterState × Nat
  | [] => (s, 0)
  | (now, i) :: rest =>
      let step := writerStep s now i
      if step.terminated then (step.state, if step.committed then 1 else 0)
      else
        let (s', n) := writerRun step.state rest
        (s', (if step.committed then 1 else 0) + n)

/-! ## JSON values and the OneBot protocol decoder
    (src/src/onebot/protocol.rs, protocol/event.rs, protocol/segment.rs,
    protocol/payload.rs).

    JSON numbers are modelled as integers: every `*_id` value the claims
    exercise is an integer, and `serde_json::Number::to_string` on an
    integer is its decimal representation. -/

/-- A JSON value (`serde_json::Value`), with numbers restricted to
integers (sufficient for every claim input). -/
inductive Json where
  | null
  | bool (b : Bool)
  | num (n : Int)
  | str (s : String)
  | arr (elems : List Json)
  | obj (fields : List (String × Json))

/-- Look a key up in a JSON object's field list (serde's map access;
the claim inputs have no duplicate keys). -/
def getField (fields : List (String × Json)) (k : String) : Option Json :=
  (fields.find? (fun p => p.1 == k)).map (·.2)

/-- A required struct field: serde errors with "missing field" when a
field without a default is absent. -/
def reqField (fields : List (String × Json)) (k : String) :
    Except String Json :=
  match getField fields k with
  | some v => Except.ok v
  | none => Except.error ("missing field: " ++ k)

/-- `id_deserializer` (protocol.rs lines 35-51): number → decimal
string, string → itself, anything else (including null) → error. -/
def idDeserializer : Json → Except String String
  | Json.num n => Except.ok (toString n)
  | Json.str s => Except.ok s
  | _ => Except.error "expected number or string"

/-- `option_id_deserializer` (protocol.rs lines 53-71) combined with
`#[serde(default)]`: absent or null → `none`, number/string →
normalized string, anything else → error. -/
def optionIdDeserializer : Option Json → Except String (Option String)
  | none => Except.ok none
  | some Json.null => Except.ok none
  | some (Json.num n) => Except.ok (some (toString n))
  | some (Json.str s) => Except.ok (some s)
  | some _ => Except.error "expected number, string, or null"

/-- A required plain `String` field. -/
def decodeString : Json → Except String String
  | Json.str s => Except.ok s
  | _ => Except.error "expected string"

/-- A required plain `i64` field. -/
def decodeInt : Json → Except String Int
  | Json.num n => Except.ok n
  | _ => Except.error "expected integer"

/-- An optional plain `Option<String>` field (absent or null → none). -/
def decodeOptString : Option Json → Except String (Option String)
  | none => Except.ok none
  | some Json.null => Except.ok none
  | some (Json.str s) => Except.ok (some s)
  | some _ => Except.error "expected string or null"

namespace Seg

/-- `segment::Text`. -/
structure Text where
  text : String
  deriving DecidableEq, Repr

/-- `segment::Face`. -/
structure Face where
  id : String
  deriving DecidableEq, Repr

/-- `segment::MarketFace`. -/
structure MarketFace where
  emoji_id : String
  url : Option String
  deriving DecidableEq, Repr

/-- `segment::Image`. -/
structure Image where
  file : String
  name : Option String
  url : Option String
  summary : Option String
  emoji_id : Option String
  deriving DecidableEq, Repr

/-- `segment::Record`. -/
structure Record where
  file : String
  name : Option String
  deriving DecidableEq, Repr

/-- `segment::Video`. -/
structure Video where
  file : String
  name : Option String
  url : Option String
  deriving DecidableEq, Repr

/-- `segment::File`. -/
structure File where
  file : String
  name : Option String
  deriving DecidableEq, Repr

/-- `segment::At` (the JSON key is `qq`). -/
structure At where
  id : String
  deriving DecidableEq, Repr

/-- `segment::Poke`. -/
structure Poke where
  type_ : String
  id : String
  name : Option String
  deriving DecidableEq, Repr

/-- `segment::Share`. -/
structure Share where
  url : String
  title : String
  content : Option String
  image : Option String
  deriving DecidableEq, Repr

/-- `segment::Contact`. -/
structure Contact where
  type_ : String
  id : String
  deriving DecidableEq, Repr

/-- `segment::Location`.  `lat`/`lon` are `f64` in the source; no claim
inspects their values, so they are carried as opaque integers here. -/
structure Location where
  lat : Int
  lon : Int
  title : Option String
  content : Option String
  deriving DecidableEq, Repr

/-- `segment::Music`. -/
structure Music where
  type_ : String
  id : Option String
  url : Option String
  audio : Option String
  title : Option String
  content : Option String
  image : Option String
  deriving DecidableEq, Repr

/-- `segment::Reply`. -/
structure Reply where
  id : String
  deriving DecidableEq, Repr

/-- `segment::Forward`. -/
structure Forward where
  id : String
  deriving DecidableEq, Repr

/-- `segment::Xml`. -/
structure Xml where
  data : String
  deriving DecidableEq, Repr

/-- `segment::Json` (a segment whose `data` is a raw JSON string). -/
structure JsonData where
  data : String
  deriving DecidableEq, Repr

end Seg

/-- `Segment` (segment.rs): the OneBot message-segment variants.
`Segment::Node`'s recursive `content` list is not exercised by any claim
and is carried without its payload. -/
inductive Segment where
  | text (seg : Seg.Text)
  | face (seg : Seg.Face)
  | marketFace (seg : Seg.MarketFace)
  | image (seg : Seg.Image)
  | record (seg : Seg.Record)
  | video (seg : Seg.Video)
  | file (seg : Seg.File)
  | atSeg (seg : Seg.At)
  | rps
  | dice
  | shake
  | poke (seg : Seg.Poke)
  | anonymous
  | share (seg : Seg.Share)
  | contact (seg : Seg.Contact)
  | location (seg : Seg.Location)
  | music (seg : Seg.Music)
  | reply (seg : Seg.Reply)
  | forward (seg : Seg.Forward)
  | node
  | xml (seg : Seg.Xml)
  | json (seg : Seg.JsonData)
  deriving DecidableEq, Repr

/-- `event::Sender`. -/
structure Sender where
  user_id : String
  nickname : String
  card : Option String
  role : Option String
  deriving DecidableEq, Repr

/-- `Sender::display_name` (event.rs lines 120-127): the card when
present and non-empty, else the nickname. -/
def Sender.display_name (s : Sender) : String :=
  match s.card with
  | some card => if card ≠ "" then card else s.nickname
  | none => s.nickname

/-- `event::Anonymous`. -/
structure Anonymous where
  id : String
  name : String
  flag : String
  deriving DecidableEq, Repr

/-- `event::MessageEvent` (event.rs lines 57-91); `extra_fields` is the
`#[serde(flatten)]` map of unrecognized keys. -/
structure MessageEvent where
  time : Int
  self_id : String
  message_type : String
  sub_type : String
  message_id : String
  group_id : Option String
  user_id : String
  target_id : Option String
  message : List Segment
  anonymous : Option Anonymous
  sender : Sender
  extra_fields : List (String × Json)

/-- `MessageEvent::get_chat_id` (event.rs lines 93-104).  The source
returns `String` and calls `group_id.unwrap()` in the `"group"` arm;
`none` here models that panic. -/
def MessageEvent.get_chat_id (e : MessageEvent) : Option String :=
  if e.message_type = "private" then
    match e.target_id with
    | some target_id =>
        if target_id ≠ "" then some target_id else some e.user_id
    | none => some e.user_id
  else if e.message_type = "group" then e.group_id
  else some ""

/-- `MessageEvent::get_chat_type` (from_onebot.rs lines 579-586). -/
def MessageEvent.get_chat_type (e : MessageEvent) : ChatType :=
  if e.message_type = "group" then ChatType.group
  else ChatType.private_

/-- The `Event` variants exercised by the claims (event.rs lines 10-32):
`post_type` values `message` and `message_sent`.  The remaining variants
(meta_event, notice, request) are handled by the pipeline embedding
directly and their JSON decoding is not needed by any claim. -/
inductive Event where
  | message (e : MessageEvent)
  | messageSent (e : MessageEvent)

/-- Decode one `Segment` (segment.rs, `#[serde(tag = "type", content =
"data")]`): adjacently tagged on `type` with the payload under `data`.
The `location` (f64 payload) and `node` (recursive payload) variants are
not exercised by any claim and are rejected here. -/
def decodeSegment : Json → Except String Segment
  | Json.obj fs => do
      let tag ← reqField fs "type" >>= decodeString
      match tag with
      | "text" => do
          let d ← reqField fs "data"
          match d with
          | Json.obj dfs => do
              let t ← reqField dfs "text" >>= decodeString
              Except.ok (Segment.text { text := t })
          | _ => Except.error "expected object"
      | "face" => do
          let d ← reqField fs "data"
          match d with
          | Json.obj dfs => do
              let i ← reqField dfs "id" >>= decodeString
              Except.ok (Segment.face { id := i })
          | _ => Except.error "expected object"
      | "mface" => do
          let d ← reqField fs "data"
          match d with
          | Json.obj dfs => do
              let e ← reqField dfs "emoji_id" >>= decodeString
              let u ← decodeOptString (getField dfs "url")
              Except.ok (Segment.marketFace { emoji_id := e, url := u })
          | _ => Except.error "expected object"
      | "image" => do
          let d ← reqField fs "data"
          match d with
          | Json.obj dfs => do
              let f ← reqField dfs "file" >>= decodeString
              let n ← decodeOptString (getField dfs "name")
              let u ← decodeOptString (getField dfs "url")
              let s ← decodeOptString (getField dfs "summary")
              let e ← decodeOptString (getField dfs "emoji_id")
              Except.ok (Segment.image
                { file := f, name := n, url := u, summary := s, emoji_id := e })
          | _ => Except.error "expected object"
      | "record" => do
          let d ← reqField fs "data"
          match d with
          | Json.obj dfs => do
              let f ← reqField dfs "file" >>= decodeString
              let n ← decodeOptString (getField dfs "name")
              Except.ok (Segment.record { file := f, name := n })
          | _ => Except.error "expected object"
      | "video" => do
          let d ← reqField fs "data"
          match d with
          | Json.obj dfs => do
              let f ← reqField dfs "file" >>= decodeString
              let n ← decodeOptString (getField dfs "name")
              let u ← decodeOptString (getField dfs "url")
              Except.ok (Segment.video { file := f, name := n, url := u })
          | _ => Except.error "expected object"
      | "file" => do
          let d ← reqField fs "data"
          match d with
          | Json.obj dfs => do
              let f ← reqField dfs "file" >>= decodeString
              let n ← decodeOptString (getField dfs "name")
              Except.ok (Segment.file { file := f, name := n })
          | _ => Except.error "expected object"
      | "at" => do
          let d ← reqField fs "data"
          match d with
          | Json.obj dfs => do
              let i ← reqField dfs "qq" >>= decodeString
              Except.ok (Segment.atSeg { id := i })
          | _ => Except.error "expected object"
      | "rps" => Except.ok Segment.rps
      | "dice" => Except.ok Segment.dice
      | "shake" => Except.ok Segment.shake
      | "anonymous" => Except.ok Segment.anonymous
      | "reply" => do
          let d ← reqField fs "data"
          match d with
          | Json.obj dfs => do
              let i ← reqField dfs "id" >>= decodeString
              Except.ok (Segment.reply { id := i })
          | _ => Except.error "expected object"
      | "forward" => do
          let d ← reqField fs "data"
          match d with
          | Json.obj dfs => do
              let i ← reqField dfs "id" >>= decodeString
              Except.ok (Segment.forward { id := i })
          | _ => Except.error "expected object"
      | "xml" => do
          let d ← reqField fs "data"
          match d with
          | Json.obj dfs => do
              let x ← reqField dfs "data" >>= decodeString
              Except.ok (Segment.xml { data := x })
          | _ => Except.error "expected object"
      | "json" => do
          let d ← reqField fs "data"
          match d with
          | Json.obj dfs => do
              let x ← reqField dfs "data" >>= decodeString
              Except.ok (Segment.json { data := x })
          | _ => Except.error "expected object"
      | other => Except.error ("unmodelled segment variant: " ++ other)
  | _ => Except.error "expected object"

/-- Decode an optional `Anonymous`. -/
def decodeAnonymous : Json → Except String Anonymous
  | Json.obj fs => do
      let i ← reqField fs "id" >>= idDeserializer
      let n ← reqField fs "name" >>= decodeString
      let f ← reqField fs "flag" >>= decodeString
      Except.ok { id := i, name := n, flag := f }
  | _ => Except.error "expected object"

/-- Decode a `Sender`. -/
def decodeSender : Json → Except String Sender
  | Json.obj fs => do
      let uid ← reqField fs "user_id" >>= idDeserializer
      let nick ← reqField fs "nickname" >>= decodeString
      let card ← decodeOptString (getField fs "card")
      let role ← decodeOptString (getField fs "role")
      Except.ok { user_id := uid, nickname := nick, card := card, role := role }
  | _ => Except.error "expected object"

/-- The declared field names of `MessageEvent`; every other key lands in
the flattened `extra_fields`. -/
def messageEventFields : List String :=
  ["time", "self_id", "message_type", "sub_type", "message_id", "group_id",
    "user_id", "target_id", "message", "anonymous", "sender"]

/-- Decode a `MessageEvent` from an object's field list (serde derive on
event.rs lines 57-91): required fields are checked in declaration order,
`Option` fields default to `none` when absent, `*_id` fields go through
the id deserializers. -/
def decodeMessageEvent (fields : List (String × Json)) :
    Except String MessageEvent := do
  let time ← reqField fields "time" >>= decodeInt
  let selfId ← reqField fields "self_id" >>= idDeserializer
  let messageType ← reqField fields "message_type" >>= decodeString
  let subType ← reqField fields "sub_type" >>= decodeString
  let messageId ← reqField fields "message_id" >>= idDeserializer
  let groupId ← optionIdDeserializer (getField fields "group_id")
  let userId ← reqField fields "user_id" >>= idDeserializer
  let targetId ← optionIdDeserializer (getField fields "target_id")
  let message ←
    match getField fields "message" with
    | some (Json.arr js) => js.mapM decodeSegment
    | some _ => Except.error "expected array"
    | none => Except.error "missing field: message"
  let anonymous ←
    match getField fields "anonymous" with
    | none => Except.ok none
    | some Json.null => Except.ok none
    | some v => (decodeAnonymous v).map some
  let sender ← reqField fields "sender" >>= decodeSender
  Except.ok
    { time := time, self_id := selfId, message_type := messageType
      sub_type := subType, message_id := messageId, group_id := groupId
      user_id := userId, target_id := targetId, message := message
      anonymous := anonymous, sender := sender
      extra_fields := fields.filter (fun p => ¬ messageEventFields.contains p.1) }

/-- Decode an `Event` (event.rs, `#[serde(tag = "post_type")]`): the
internally tagged representation consumes the `post_type` key and feeds
the remaining fields to the variant.  Only the `message` and
`message_sent` variants are needed by the claims. -/
def decodeEvent : Json → Except String Event
  | Json.obj fs => do
      let tag ← reqField fs "post_type" >>= decodeString
      match tag with
      | "message" => (decodeMessageEvent
          (fs.filter (fun p => p.1 ≠ "post_type"))).map Event.message
      | "message_sent" => (decodeMessageEvent
          (fs.filter (fun p => p.1 ≠ "post_type"))).map Event.messageSent
      | other => Except.error ("unmodelled post_type: " ++ other)
  | _ => Except.error "expected object"

/-- A decoded `Payload` (payload.rs): one of the three untagged shapes.
The request/response payloads are carried shallowly (their parameter
bodies are not needed by any claim). -/
inductive Payload where
  | request (action echo : String)
  | response (echo status : String) (retcode : Int)
  | event (e : Event)

/-- Decode a `Request` shallowly: internally tagged on `action`, always
carrying an `echo` string.  (Per-action `params` validation is not
needed by any claim: the only claim input carries no `action` key and
fails at the tag, exactly as serde does.) -/
def decodeRequestShallow : Json → Except String Payload
  | Json.obj fs => do
      let action ← reqField fs "action" >>= decodeString
      let echo ← reqField fs "echo" >>= decodeString
      Except.ok (Payload.request action echo)
  | _ => Except.error "expected object"

/-- Decode a `Response` shallowly (response.rs lines 8-17): requires
`echo`, `status`, `retcode` and `data`.  (`ResponseData` variant
matching is not needed by any claim: the only claim input carries no
`echo` key and fails before `data` is examined.) -/
def decodeResponseShallow : Json → Except String Payload
  | Json.obj fs => do
      let echo ← reqField fs "echo" >>= decodeString
      let status ← reqField fs "status" >>= decodeString
      let retcode ← reqField fs "retcode" >>= decodeInt
      let _ ← reqField fs "data"
      Except.ok (Payload.response echo status retcode)
  | _ => Except.error "expected object"

/-- Decode a `Payload` (payload.rs, `#[serde(untagged)]`): try
`Request`, then `Response`, then `Event`, in declaration order. -/
def decodePayload (j : Json) : Except String Payload :=
  match decodeRequestShallow j with
  | Except.ok p => Except.ok p
  | Except.error _ =>
      match decodeResponseShallow j with
      | Except.ok p => Except.ok p
      | Except.error _ =>
          match decodeEvent j with
          | Except.ok e => Except.ok (Payload.event e)
          | Except.error _ =>
              Except.error "data did not match any variant of untagged enum Payload"

/-- The exact inbound JSON payload of claim C5. -/
def c5Json : Json :=
  Json.obj
    [("post_type", Json.str "message"),
     ("message_type", Json.str "private"),
     ("self_id", Json.num 10001),
     ("user_id", Json.num 42),
     ("message_id", Json.num 7),
     ("message", Json.arr
       [Json.obj [("type", Json.str "text"),
                  ("data", Json.obj [("text", Json.str "hi")])]]),
     ("sender", Json.obj [("user_id", Json.num 42),
                          ("nickname", Json.str "A")])]

/-- Claim C5's payload extended with the `time` and `sub_type` fields
that `MessageEvent` requires. -/
def c5JsonFixed : Json :=
  Json.obj
    [("post_type", Json.str "message"),
     ("message_type", Json.str "private"),
     ("time", Json.num 1700000000),
     ("sub_type", Json.str "friend"),
     ("self_id", Json.num 10001),
     ("user_id", Json.num 42),
     ("message_id", Json.num 7),
     ("message", Json.arr
       [Json.obj [("type", Json.str "text"),
                  ("data", Json.obj [("text", Json.str "hi")])]]),
     ("sender", Json.obj [("user_id", Json.num 42),
                          ("nickname", Json.str "A")])]

/-- The `MessageEvent` that `c5JsonFixed` decodes to. -/
def c5Expected : MessageEvent :=
  { time := 1700000000, self_id := "10001", message_type := "private"
    sub_type := "friend", message_id := "7", group_id := none
    user_id := "42", target_id := none
    message := [Segment.text { text := "hi" }]
    anonymous := none
    sender := { user_id := "42", nickname := "A", card := none, role := none }
    extra_fields := [] }

/-! ## C10: `fix_filename` (src/src/telegram/bridge.rs lines 823-834)
    and the `std::path` file-name primitives it relies on, modelled for
    slash-free path strings (the domain `upload_segment` feeds it). -/

/-- `u8::to_ascii_lowercase` restricted to one character: ASCII
uppercase letters are lowered, everything else is untouched. -/
def asciiLower (c : Char) : Char :=
  if 'A' ≤ c ∧ c ≤ 'Z' then Char.ofNat (c.toNat + 32) else c

/-- `str::eq_ignore_ascii_case`: bytewise equality after ASCII
lowercasing (for valid UTF-8 this coincides with the characterwise
comparison used here, since ASCII bytes never occur inside a multi-byte
sequence). -/
def eqIgnoreAsciiCase (a b : String) : Bool :=
  a.data.map asciiLower == b.data.map asciiLower

/-- `Path::file_name` for a slash-free path string: `None` exactly for
the empty path and the special components `.` and `..`. -/
def fileNameOf (s : String) : Option String :=
  if s = "" ∨ s = "." ∨ s = ".." then none else some s

/-- Split a character list at its last `'.'`, returning the parts
before and after it (`none` when there is no dot). -/
def splitLastDot : List Char → Option (List Char × List Char)
  | [] => none
  | c :: cs =>
      match splitLastDot cs with
      | some (b, a) => some (c :: b, a)
      | none => if c = '.' then some ([], cs) else none

/-- Split a file name's characters around its last extension dot: the
first character never starts an extension (`std::path` ignores a dot at
byte index 0), the split happens at the last dot of the tail. -/
def splitFileCore (l : List Char) : Option (List Char × List Char) :=
  match l with
  | [] => none
  | c :: rest =>
      match splitLastDot rest with
      | none => none
      | some (b, a) => some (c :: b, a)

/-- `std::path::split_file_at_dot`: the file name `".."` has no
extension; otherwise split at the last dot occurring at byte index ≥ 1
(a leading dot does not start an extension). -/
def splitFileAtDot (f : String) : String × Option String :=
  if f = ".." then (f, none)
  else
    match splitFileCore f.data with
    | none => (f, none)
    | some (b, a) => (⟨b⟩, some ⟨a⟩)

/-- `Path::extension` for a slash-free path string. -/
def extensionOf (s : String) : Option String :=
  (fileNameOf s).bind (fun f => (splitFileAtDot f).2)

/-- `PathBuf::set_extension` for a slash-free path string: does nothing
when there is no file name; otherwise truncates to the file stem and
appends `"." ++ ext` when `ext` is non-empty. -/
def setExtension (s ext : String) : String :=
  match fileNameOf s with
  | none => s
  | some f => (splitFileAtDot f).1 ++ (if ext = "" then "" else "." ++ ext)

/-- `fix_filename` (bridge.rs lines 823-834): keep the filename when its
current extension equals the sniffed one ignoring ASCII case, otherwise
set the extension; `to_str` always succeeds on UTF-8 strings, so the
result is always `some`. -/
def fix_filename (filename ext : String) : Option String :=
  match extensionOf filename with
  | some currentExt =>
      if eqIgnoreAsciiCase currentExt ext then some filename
      else some (setExtension filename ext)
  | none => some (setExtension filename ext)

/-- The concrete `MessageEvent` refuting claim C9: `message_type` is
neither `"private"` nor `"group"`. -/
def c9CexEvent : MessageEvent :=
  { time := 0, self_id := "10001", message_type := "channel"
    sub_type := "", message_id := "1", group_id := none
    user_id := "42", target_id := none, message := []
    anonymous := none
    sender := { user_id := "42", nickname := "A", card := none, role := none }
    extra_fields := [] }

/-- A private-chat event used to witness the amended claim C9. -/
def c9PrivEvent : MessageEvent :=
  { c9CexEvent with message_type := "private", target_id := some "99" }

/-! ## The relay bridge and the event→Telegram pipeline
    (src/src/telegram/bridge.rs, src/src/telegram/from_onebot.rs).

    The Telegram client, remote adapters, media transcoders and JSON
    helpers of onebot_helper.rs are pure oracle functions in `Env`; the
    SQL tables are explicit lists (a `.one()` query is `List.find?`);
    the two `DashMap` caches are functions.  Telegram sends, limiter
    acquisitions and index submissions are recorded in an action trace,
    which is what the temporal claims speak about. -/

/-- `UserInfo` (response.rs lines 61-72). -/
structure UserInfo where
  user_id : String
  nickname : String
  remark : Option String
  avatar : Option String
  deriving DecidableEq, Repr

/-- `UserInfo::display_name` (response.rs lines 74-81). -/
def UserInfo.display_name (u : UserInfo) : String :=
  match u.remark with
  | some remark => if remark ≠ "" then remark else u.nickname
  | none => u.nickname

/-- `GroupInfo` (response.rs lines 83-92). -/
structure GroupInfo where
  group_id : String
  group_name : String
  avatar : Option String
  deriving DecidableEq, Repr

/-- `GroupInfo::display_name` (response.rs lines 94-98). -/
def GroupInfo.display_name (g : GroupInfo) : String :=
  g.group_name

/-- `MemberInfo` (response.rs lines 100-119), sans the flattened extra
fields (never read by the pipeline). -/
structure MemberInfo where
  user_id : String
  group_id : String
  nickname : String
  card : Option String
  role : String
  avatar : Option String
  deriving DecidableEq, Repr

/-- `MemberInfo::display_name` (response.rs lines 121-128). -/
def MemberInfo.display_name (m : MemberInfo) : String :=
  match m.card with
  | some card => if card ≠ "" then card else m.nickname
  | none => m.nickname

/-- `FriendRecallEvent` (event.rs lines 260-273). -/
structure FriendRecallEvent where
  time : Int
  self_id : String
  message_id : String
  user_id : String
  deriving DecidableEq, Repr

/-- `GroupRecallEvent` (event.rs lines 281-301). -/
structure GroupRecallEvent where
  time : Int
  self_id : String
  message_id : String
  user_id : String
  group_id : String
  operator_id : String
  deriving DecidableEq, Repr

/-- The `NoticeEvent` variants acted upon by the pipeline (event.rs
lines 189-223): only friend_recall and group_recall are handled, every
other variant falls into the pipeline's `_ => return Ok(())` arm and is
collapsed into `other` here. -/
inductive NoticeEvent where
  | friendRecall (e : FriendRecallEvent)
  | groupRecall (e : GroupRecallEvent)
  | other
  deriving DecidableEq, Repr

/-- `remote_chat` entity (entities/remote_chat.rs); timestamps omitted
(no claim reads them). -/
structure RemoteChat where
  id : Int
  endpoint : Endpoint
  chat_type : ChatType
  target_id : String
  name : String
  deriving DecidableEq, Repr

/-- `archive` entity (entities/archive.rs). -/
structure Archive where
  id : Int
  endpoint : Endpoint
  tg_chat_id : Int
  deriving DecidableEq, Repr

/-- `topic` entity (entities/topic.rs). -/
structure Topic where
  id : Int
  archive_id : Int
  tg_topic_id : Int
  remote_chat_id : Int
  deriving DecidableEq, Repr

/-- Modelled from the spec: the `link` entity module is declared as
`pub mod link` in src/src/telegram/entities.rs but its file is not under
src/.  Its shape follows §3 of the spec ("Link (persisted): id,
tg_chat_type, tg_chat_id, remote_chat_id, timestamps") and its uses in
bridge.rs (`create_link` stores `tg_chat_type` as a `u8` packed-type
byte, `find_link_by_remote` filters on `remote_chat_id`). -/
structure Link where
  id : Int
  tg_chat_type : Nat
  tg_chat_id : Int
  remote_chat_id : Int
  deriving DecidableEq, Repr

/-- `message` entity (entities/message.rs); timestamps omitted. -/
structure MessageRow where
  id : Int
  tg_chat_id : Int
  tg_msg_id : Int
  remote_chat_id : Int
  remote_msg_id : String
  content : String
  delivery_status : DeliveryStatus
  deriving DecidableEq, Repr

/-- `grammers_client::session::PackedType`, the packed chat kind. -/
inductive PackedType where
  | user
  | bot
  | chat
  | megagroup
  | broadcast
  | gigagroup
  deriving DecidableEq, Repr

/-- The packed-type byte decoding in `fetch_chat_and_title`
(from_onebot.rs lines 536-544), defaulting to `User`. -/
def packedTypeOfByte (b : Nat) : PackedType :=
  if b = 0b00000010 then PackedType.user
  else if b = 0b00000011 then PackedType.bot
  else if b = 0b00000100 then PackedType.chat
  else if b = 0b00101000 then PackedType.megagroup
  else if b = 0b00110000 then PackedType.broadcast
  else if b = 0b00111000 then PackedType.gigagroup
  else PackedType.user

/-- A resolved Telegram chat handle: the routing-relevant content of a
`grammers_client::types::Chat` is its packed type and id. -/
structure TgChat where
  packed_type : PackedType
  chat_id : Int
  deriving DecidableEq, Repr

/-- A sent Telegram message: its chat and message id. -/
structure TgMsg where
  chat_id : Int
  msg_id : Int
  deriving DecidableEq, Repr

/-- `UploadedInfo` (bridge.rs lines 53-61); the opaque `Uploaded` file
handle is omitted. -/
structure UploadedInfo where
  file_name : String
  file_size : Nat
  mime_type : String
  width : Nat
  height : Nat
  deriving DecidableEq, Repr

/-- An `InputMediaVenue` (only its existence matters to the claims; the
f64 coordinates are carried as opaque integers). -/
structure Venue where
  lat : Int
  lon : Int
  title : String
  address : String
  deriving DecidableEq, Repr

/-- The persisted tables. -/
structure Db where
  remoteChats : List RemoteChat
  archives : List Archive
  topics : List Topic
  links : List Link
  messages : List MessageRow
  deriving DecidableEq, Repr

/-- The observable actions of the pipeline: limiter acquisitions
(`tg_rate_limit.until_key_ready(&chat.id)`), bridge sends
(`send_telegram_message` / `send_telegram_album`), direct
`bot_client.send_message` calls that bypass the limiter, and index
submissions. -/
inductive Action where
  | rateAcquire (tgChatId : Int)
  | sendMessage (tgChatId : Int)
  | sendAlbum (tgChatId : Int)
  | rawSend (tgChatId : Int)
  | indexDoc (tgChatId tgMsgId : Int)
  deriving DecidableEq, Repr

/-- Mutable bridge state: tables, the two caches, id allocators and the
emitted action trace. -/
structure St where
  db : Db
  remoteChatCache : Endpoint × ChatType × String → Option RemoteChat
  tgChatCache : PackedType × Int → Bool
  nextRowId : Int
  nextTgMsgId : Int
  uuidCounter : Nat
  trace : List Action

/-- The external world: the admin id from the configuration, the remote
OneBot adapters (typed API wrappers of bridge.rs, which may fail), the
Telegram client primitives, and the pure helpers of onebot_helper.rs. -/
structure Env where
  adminId : Int
  strangerInfo : Endpoint → String → Bool → Option UserInfo
  groupInfo : Endpoint → String → Bool → Option GroupInfo
  groupMemberInfo : Endpoint → String → String → Bool → Option MemberInfo
  uploadSegment : Endpoint → Segment → Option UploadedInfo
  unpackChat : PackedType → Int → Bool
  createTopicId : Int → Option Int
  jsonView : String → Option String
  extractLocation : String → Option Venue
  extractShare : String → Option String
  replaceWechatEmoji : String → String
  replaceQqFace : String → String
  encodeText : String → String
  freshUuid : Nat → String

/-- Errors are strings (`anyhow::Error`). -/
def Err : Type := String

/-- Append one action to the trace. -/
def emit (a : Action) (st : St) : St :=
  { st with trace := st.trace ++ [a] }

/-- `find_message_by_remote` (bridge.rs lines 477-487): the first row
matching `(remote_chat_id, remote_msg_id)`. -/
def findMessageByRemote (messages : List MessageRow) (remoteChatId : Int)
    (messageId : String) : Option MessageRow :=
  messages.find? (fun m =>
    decide (m.remote_chat_id = remoteChatId ∧ m.remote_msg_id = messageId))

/-- `find_link_by_remote` (bridge.rs lines 507-515). -/
def findLinkByRemote (links : List Link) (remoteChatId : Int) : Option Link :=
  links.find? (fun l => decide (l.remote_chat_id = remoteChatId))

/-- `find_archive_by_endpoint` (bridge.rs lines 528-536). -/
def findArchiveByEndpoint (archives : List Archive) (ep : Endpoint) :
    Option Archive :=
  archives.find? (fun a => decide (a.endpoint = ep))

/-- The topic query of `get_or_create_topic` (bridge.rs lines 588-594):
first topic row with this `remote_chat_id`. -/
def findTopicByRemote (topics : List Topic) (remoteChatId : Int) :
    Option Topic :=
  topics.find? (fun t => decide (t.remote_chat_id = remoteChatId))

/-- The remote-chat query of `get_remote_chat` (bridge.rs lines
423-428). -/
def findRemoteChatDb (db : Db) (ep : Endpoint) (ct : ChatType)
    (tid : String) : Option RemoteChat :=
  db.remoteChats.find? (fun m =>
    decide (m.endpoint = ep ∧ m.chat_type = ct ∧ m.target_id = tid))

/-- Insert into a function-modelled `DashMap`. -/
def cacheInsert (c : Endpoint × ChatType × String → Option RemoteChat)
    (k : Endpoint × ChatType × String) (v : RemoteChat) :
    Endpoint × ChatType × String → Option RemoteChat :=
  fun k' => if k' = k then some v else c k'

/-- `save_remote_private_chat` (bridge.rs `save_remote_chat!` macro,
lines 227-244, instantiated at line 817): insert a `remote_chat` row
from a `UserInfo`. -/
def saveRemotePrivateChat (ep : Endpoint) (info : UserInfo) (st : St) :
    RemoteChat × St :=
  let row : RemoteChat :=
    { id := st.nextRowId, endpoint := ep, chat_type := ChatType.private_
      target_id := info.user_id, name := info.display_name }
  (row, { st with
    db := { st.db with remoteChats := st.db.remoteChats ++ [row] }
    nextRowId := st.nextRowId + 1 })

/-- `save_remote_group_chat` (bridge.rs line 818). -/
def saveRemoteGroupChat (ep : Endpoint) (info : GroupInfo) (st : St) :
    RemoteChat × St :=
  let row : RemoteChat :=
    { id := st.nextRowId, endpoint := ep, chat_type := ChatType.group
      target_id := info.group_id, name := info.display_name }
  (row, { st with
    db := { st.db with remoteChats := st.db.remoteChats ++ [row] }
    nextRowId := st.nextRowId + 1 })

/-- `Bridge::get_remote_chat` (bridge.rs lines 412-459): cache first,
then DB, then a `no_cache=true` remote info fetch that inserts a fresh
row; every success path populates the cache. -/
def getRemoteChat (env : Env) (ep : Endpoint) (ct : ChatType)
    (tid : String) (st : St) : Except Err RemoteChat × St :=
  match st.remoteChatCache (ep, ct, tid) with
  | some rc => (Except.ok rc, st)
  | none =>
      match findRemoteChatDb st.db ep ct tid with
      | some m =>
          (Except.ok m, { st with
            remoteChatCache := cacheInsert st.remoteChatCache (ep, ct, tid) m })
      | none =>
          match ct with
          | ChatType.private_ =>
              match env.strangerInfo ep tid true with
              | none => (Except.error "failed to get_stranger_info", st)
              | some info =>
                  let p := saveRemotePrivateChat ep info st
                  (Except.ok p.1, { p.2 with
                    remoteChatCache :=
                      cacheInsert p.2.remoteChatCache (ep, ct, tid) p.1 })
          | ChatType.group =>
              match env.groupInfo ep tid true with
              | none => (Except.error "failed to get_group_info", st)
              | some info =>
                  let p := saveRemoteGroupChat ep info st
                  (Except.ok p.1, { p.2 with
                    remoteChatCache :=
                      cacheInsert p.2.remoteChatCache (ep, ct, tid) p.1 })

/-- `Bridge::get_tg_chat` (bridge.rs lines 461-475): cache first, then
`unpack_chat` through the Telegram client. -/
def getTgChat (env : Env) (pt : PackedType) (chatId : Int) (st : St) :
    Except Err TgChat × St :=
  if st.tgChatCache (pt, chatId) then
    (Except.ok { packed_type := pt, chat_id := chatId }, st)
  else if env.unpackChat pt chatId then
    (Except.ok { packed_type := pt, chat_id := chatId },
      { st with tgChatCache := fun k =>
          if k = (pt, chatId) then true else st.tgChatCache k })
  else (Except.error "unpack_chat failed", st)

/-- `Bridge::get_or_create_topic` (bridge.rs lines 582-633): reuse an
existing topic row, otherwise resolve the forum chat and invoke
`CreateForumTopic` (the RPC and its `Updates` parsing are collapsed into
the `createTopicId` oracle) and persist the new row. -/
def getOrCreateTopic (env : Env) (archive : Archive) (rc : RemoteChat)
    (st : St) : Except Err Int × St :=
  match findTopicByRemote st.db.topics rc.id with
  | some topic => (Except.ok topic.tg_topic_id, st)
  | none =>
      match getTgChat env PackedType.megagroup archive.tg_chat_id st with
      | (Except.error e, st₁) => (Except.error e, st₁)
      | (Except.ok _, st₁) =>
          match env.createTopicId rc.id with
          | none => (Except.error "Failed to get or create topic", st₁)
          | some topicId =>
              let row : Topic :=
                { id := st₁.nextRowId, archive_id := archive.id
                  tg_topic_id := topicId, remote_chat_id := rc.id }
              (Except.ok topicId,
                { st₁ with
                  db := { st₁.db with topics := st₁.db.topics ++ [row] }
                  nextRowId := st₁.nextRowId + 1 })

/-- `TG_RATE_LIMIT` (bridge.rs line 50). -/
def TG_RATE_LIMIT : Nat := 20

/-- The keyed limiter quota configured in `Bridge::new` (bridge.rs lines
296-298): `Quota::per_minute(TG_RATE_LIMIT - 1)` tokens per 60 s per
Telegram chat id. -/
def tgRateQuotaPerMinute : Nat := TG_RATE_LIMIT - 1

/-- `Bridge::send_telegram_message` (bridge.rs lines 302-315): acquire a
limiter token for the chat id, then send one message. -/
def sendTelegramMessage (chat : TgChat) (st : St) : TgMsg × St :=
  let st₁ := emit (Action.sendMessage chat.chat_id)
    (emit (Action.rateAcquire chat.chat_id) st)
  ({ chat_id := chat.chat_id, msg_id := st₁.nextTgMsgId },
    { st₁ with nextTgMsgId := st₁.nextTgMsgId + 1 })

/-- `Bridge::send_telegram_album` (bridge.rs lines 317-327): acquire a
limiter token for the chat id, then send the album; the client returns
one (optional) message per input media. -/
def sendTelegramAlbum (chat : TgChat) (n : Nat) (st : St) :
    List (Option TgMsg) × St :=
  let st₁ := emit (Action.sendAlbum chat.chat_id)
    (emit (Action.rateAcquire chat.chat_id) st)
  ((List.range n).map (fun (i : Nat) =>
      some { chat_id := chat.chat_id, msg_id := st₁.nextTgMsgId + (i : Int) }),
    { st₁ with nextTgMsgId := st₁.nextTgMsgId + n })

/-- `Bridge::save_message_by_remote` (bridge.rs lines 660-677): insert a
`message` row with `delivery_status = Sent`. -/
def saveMessageByRemote (remoteChatId : Int) (remoteMsgId : String)
    (msg : TgMsg) (st : St) : St :=
  let row : MessageRow :=
    { id := st.nextRowId, tg_chat_id := msg.chat_id, tg_msg_id := msg.msg_id
      remote_chat_id := remoteChatId, remote_msg_id := remoteMsgId
      content := "", delivery_status := DeliveryStatus.sent }
  { st with
    db := { st.db with messages := st.db.messages ++ [row] }
    nextRowId := st.nextRowId + 1 }

/-- `Bridge::index_message` (via IndexService): submit the sent message
to the index writer channel. -/
def indexMessage (msg : TgMsg) (st : St) : St :=
  emit (Action.indexDoc msg.chat_id msg.msg_id) st

/-- `is_sticker` (onebot_helper.rs lines 14-26). -/
def is_sticker : Segment → Bool
  | Segment.marketFace _ => true
  | Segment.image image =>
      match image.emoji_id with
      | some _ => true
      | none =>
          match image.summary with
          | some summary => decide (summary = "[动画表情]")
          | none => false
  | _ => false

/-- `TelegramPylon::fetch_chat_and_title` (from_onebot.rs lines
523-576): resolve the target chat, the topic reply-to and the caption
prefix by the Link ≻ Archive ≻ admin-DM priority. -/
def fetchChatAndTitle (env : Env) (ep : Endpoint) (rc : RemoteChat)
    (senderName : String) (st : St) :
    Except Err (TgChat × Option Int × String) × St :=
  match getRemoteChat env ep rc.chat_type rc.target_id st with
  | (Except.error e, st₁) => (Except.error e, st₁)
  | (Except.ok target, st₁) =>
      match findLinkByRemote st₁.db.links rc.id with
      | some link =>
          match getTgChat env (packedTypeOfByte link.tg_chat_type)
              link.tg_chat_id st₁ with
          | (Except.error e, st₂) => (Except.error e, st₂)
          | (Except.ok chat, st₂) =>
              (Except.ok (chat, none, senderName ++ ":"), st₂)
      | none =>
          match findArchiveByEndpoint st₁.db.archives ep with
          | some archive =>
              match getOrCreateTopic env archive rc st₁ with
              | (Except.error e, st₂) => (Except.error e, st₂)
              | (Except.ok topicId, st₂) =>
                  match getTgChat env PackedType.megagroup
                      archive.tg_chat_id st₂ with
                  | (Except.error e, st₃) => (Except.error e, st₃)
                  | (Except.ok chat, st₃) =>
                      (Except.ok (chat, some topicId, senderName ++ ":"), st₃)
          | none =>
              match getTgChat env PackedType.user env.adminId st₁ with
              | (Except.error e, st₂) => (Except.error e, st₂)
              | (Except.ok chat, st₂) =>
                  (Except.ok (chat, none,
                    match rc.chat_type with
                    | ChatType.private_ => "👤 " ++ target.name ++ ":"
                    | ChatType.group =>
                        "👥 " ++ senderName ++ " [" ++ target.name ++ "]:"),
                    st₂)

/-- The Telegram message kind chosen by the segment loop
(from_onebot.rs lines 29-38). -/
inductive TgMsgType where
  | text
  | html
  | photo
  | sticker
  | voice
  | video
  | document
  | location
  deriving DecidableEq, Repr

/-- The mutable locals of the segment loop of `process_onebot_message`
(from_onebot.rs lines 93-97): message kind, fallback text, uploaded
media, venue, and the reply target seeded by `fetch_chat_and_title`. -/
structure LoopAcc where
  msgType : TgMsgType
  content : String
  mediaUploaded : List UploadedInfo
  location : Option Venue
  replyTo : Option Int
  deriving DecidableEq, Repr

/-- One iteration of the segment loop (from_onebot.rs lines 98-252).
Returns the updated accumulator and whether the loop `break`s (the two
`break`s of the `Json` arm); `Except.error` models the `?`-propagated
failures and the `group_id.unwrap()` panic of the `At` arm. -/
def segStep (env : Env) (ep : Endpoint) (msg : MessageEvent)
    (rc : RemoteChat) (db : Db) (acc : LoopAcc) (seg : Segment) :
    Except Err (LoopAcc × Bool) :=
  match seg with
  | Segment.text seg =>
      match ep.platform with
      | Platform.wechat =>
          Except.ok ({ acc with
            content := acc.content ++ env.replaceWechatEmoji seg.text }, false)
      | _ =>
          Except.ok ({ acc with content := acc.content ++ seg.text }, false)
  | Segment.face seg =>
      match ep.platform with
      | Platform.qq =>
          Except.ok ({ acc with
            content := acc.content ++ env.replaceQqFace seg.id }, false)
      | _ =>
          Except.ok ({ acc with
            content := acc.content ++ "/[Face" ++ seg.id ++ "]" }, false)
  | Segment.atSeg seg =>
      match msg.group_id with
      | none => Except.error "panic: called unwrap on a None group_id"
      | some gid =>
          match env.groupMemberInfo ep gid seg.id true with
          | some member =>
              Except.ok ({ acc with
                content := acc.content ++ "@" ++ member.display_name }, false)
          | none =>
              Except.ok ({ acc with
                content := acc.content ++ "@" ++ seg.id }, false)
  | Segment.image _ =>
      match env.uploadSegment ep seg with
      | some uploaded =>
          Except.ok ({ acc with
            mediaUploaded := acc.mediaUploaded ++ [uploaded]
            content := acc.content ++ "[图片]"
            msgType := if is_sticker seg then TgMsgType.sticker
              else TgMsgType.photo }, false)
      | none =>
          Except.ok ({ acc with
            content := acc.content ++ "[图片上传失败]" }, false)
  | Segment.marketFace _ =>
      match env.uploadSegment ep seg with
      | some uploaded =>
          Except.ok ({ acc with
            mediaUploaded := acc.mediaUploaded ++ [uploaded]
            content := acc.content ++ "[表情]"
            msgType := TgMsgType.sticker }, false)
      | none =>
          Except.ok ({ acc with
            content := acc.content ++ "[表情上传失败]" }, false)
  | Segment.record _ =>
      match env.uploadSegment ep seg with
      | some uploaded =>
          Except.ok ({ acc with
            mediaUploaded := acc.mediaUploaded ++ [uploaded]
            content := acc.content ++ "[语音]"
            msgType := TgMsgType.voice }, false)
      | none =>
          Except.ok ({ acc with
            content := acc.content ++ "[语音上传失败]" }, false)
  | Segment.video _ =>
      match env.uploadSegment ep seg with
      | some uploaded =>
          Except.ok ({ acc with
            mediaUploaded := acc.mediaUploaded ++ [uploaded]
            content := acc.content ++ "[视频]"
            msgType := TgMsgType.video }, false)
      | none =>
          Except.ok ({ acc with
            content := acc.content ++ "[视频上传失败]" }, false)
  | Segment.file _ =>
      match env.uploadSegment ep seg with
      | some uploaded =>
          Except.ok ({ acc with
            mediaUploaded := acc.mediaUploaded ++ [uploaded]
            content := acc.content ++ "[文件]"
            msgType := TgMsgType.document }, false)
      | none =>
          Except.ok ({ acc with
            content := acc.content ++ "[文件上传失败]" }, false)
  | Segment.reply seg =>
      match findMessageByRemote db.messages rc.id seg.id with
      | some entity =>
          Except.ok ({ acc with replyTo := some entity.tg_msg_id }, false)
      | none => Except.ok (acc, false)
  | Segment.forward _ =>
      Except.ok ({ acc with content := acc.content ++ "[合并消息]" }, false)
  | Segment.location seg =>
      Except.ok ({ acc with
        location := some
          { lat := seg.lat, lon := seg.lon
            title := seg.title.getD "", address := seg.content.getD "" }
        msgType := TgMsgType.location }, false)
  | Segment.share seg =>
      Except.ok ({ acc with
        content := acc.content ++ "<u>" ++ env.encodeText seg.title ++
          "</u>\n\n" ++ env.encodeText (seg.content.getD "") ++
          "\n\nvia <a href=\"" ++ env.encodeText seg.url ++ "\">" ++
          env.encodeText seg.title ++ "</a>"
        msgType := TgMsgType.html }, false)
  | Segment.json seg =>
      match env.jsonView seg.data with
      | some view =>
          if view = "LocationShare" then
            match env.extractLocation seg.data with
            | none => Except.error "extract_location_from_json failed"
            | some venue =>
                Except.ok ({ acc with
                  location := some venue
                  msgType := TgMsgType.location }, true)
          else
            match env.extractShare seg.data with
            | none => Except.error "extract_share_from_json failed"
            | some share =>
                if share ≠ "" then
                  Except.ok ({ acc with
                    content := acc.content ++ share
                    msgType := TgMsgType.html }, true)
                else
                  Except.ok ({ acc with
                    content := acc.content ++ seg.data }, false)
      | none =>
          Except.ok ({ acc with content := acc.content ++ seg.data }, false)
  | _ => Except.ok (acc, false)

/-- The segment loop (from_onebot.rs lines 98-252). -/
def segLoop (env : Env) (ep : Endpoint) (msg : MessageEvent)
    (rc : RemoteChat) (db : Db) :
    LoopAcc → List Segment → Except Err LoopAcc
  | acc, [] => Except.ok acc
  | acc, seg :: rest =>
      match segStep env ep msg rc db acc seg with
      | Except.error e => Except.error e
      | Except.ok (acc', true) => Except.ok acc'
      | Except.ok (acc', false) => segLoop env ep msg rc db acc' rest

/-- `Vec::pop`: remove and return the last element. -/
def popLast (l : List UploadedInfo) : Option (UploadedInfo × List UploadedInfo) :=
  match l.getLast? with
  | none => none
  | some x => some (x, l.dropLast)

/-- The send section of `process_onebot_message` (from_onebot.rs lines
254-381): one bridge send per event, chosen by the accumulated message
type.  Every branch performs exactly one `send_telegram_message` or
`send_telegram_album`; the single-photo size test (document vs. photo
attachment, lines 278-299) selects the attachment but not the send
primitive, so it does not alter the action trace.  The `unwrap()` calls
on the media stack and the venue are modelled as errors. -/
def sendConverted (chat : TgChat) (acc : LoopAcc) (st : St) :
    Except Err (List (Option TgMsg)) × St :=
  match acc.msgType with
  | TgMsgType.text =>
      let p := sendTelegramMessage chat st
      (Except.ok [some p.1], p.2)
  | TgMsgType.html =>
      let p := sendTelegramMessage chat st
      (Except.ok [some p.1], p.2)
  | TgMsgType.photo =>
      if acc.mediaUploaded.length = 1 then
        let p := sendTelegramMessage chat st
        (Except.ok [some p.1], p.2)
      else
        let p := sendTelegramAlbum chat acc.mediaUploaded.length st
        (Except.ok p.1, p.2)
  | TgMsgType.sticker =>
      match popLast acc.mediaUploaded with
      | none => (Except.error "panic: called unwrap on an empty media stack", st)
      | some _ =>
          let p := sendTelegramMessage chat st
          (Except.ok [some p.1], p.2)
  | TgMsgType.voice =>
      match popLast acc.mediaUploaded with
      | none => (Except.error "panic: called unwrap on an empty media stack", st)
      | some _ =>
          let p := sendTelegramMessage chat st
          (Except.ok [some p.1], p.2)
  | TgMsgType.video =>
      match popLast acc.mediaUploaded with
      | none => (Except.error "panic: called unwrap on an empty media stack", st)
      | some _ =>
          let p := sendTelegramMessage chat st
          (Except.ok [some p.1], p.2)
  | TgMsgType.document =>
      match popLast acc.mediaUploaded with
      | none => (Except.error "panic: called unwrap on an empty media stack", st)
      | some _ =>
          let p := sendTelegramMessage chat st
          (Except.ok [some p.1], p.2)
  | TgMsgType.location =>
      match acc.location with
      | none => (Except.error "panic: called unwrap on a None location", st)
      | some _ =>
          let p := sendTelegramMessage chat st
          (Except.ok [some p.1], p.2)

/-- The post-send bookkeeping of `process_onebot_message`
(from_onebot.rs lines 385-397): for every delivered Telegram message,
hand it to the indexer and persist the `Message` mapping (failures of
either are swallowed in the source; the embedding's DB insert is
total). -/
def saveDelivered (remoteChatId : Int) (remoteMsgId : String)
    (msgs : List TgMsg) (st : St) : St :=
  msgs.foldl (fun s m =>
    saveMessageByRemote remoteChatId remoteMsgId m (indexMessage m s)) st

/-- The initial loop accumulator (from_onebot.rs lines 93-97), seeded
with the reply-to from `fetch_chat_and_title`. -/
def initAcc (replyTo : Option Int) : LoopAcc :=
  { msgType := TgMsgType.text, content := "", mediaUploaded := []
    location := none, replyTo := replyTo }

/-- `TelegramPylon::process_onebot_message` (from_onebot.rs lines
59-400): drop empty events, resolve the remote chat, deduplicate by
`(remote_chat, remote_msg_id)`, resolve routing, convert segments, send
once, then index and persist every delivered message. -/
def processOnebotMessage (env : Env) (ep : Endpoint) (msg : MessageEvent)
    (st : St) : Except Err Unit × St :=
  if msg.message.isEmpty then (Except.ok (), st)
  else
    match msg.get_chat_id with
    | none => (Except.error "panic: called unwrap on a None group_id", st)
    | some chatId =>
        match getRemoteChat env ep msg.get_chat_type chatId st with
        | (Except.error e, st₁) => (Except.error e, st₁)
        | (Except.ok rc, st₁) =>
            match findMessageByRemote st₁.db.messages rc.id msg.message_id with
            | some _ => (Except.ok (), st₁)
            | none =>
                match fetchChatAndTitle env ep rc msg.sender.display_name st₁ with
                | (Except.error e, st₂) => (Except.error e, st₂)
                | (Except.ok (chat, replyTo, _title), st₂) =>
                    match segLoop env ep msg rc st₂.db
                        (initAcc replyTo) msg.message with
                    | Except.error e => (Except.error e, st₂)
                    | Except.ok acc =>
                        match sendConverted chat acc st₂ with
                        | (Except.error e, st₃) => (Except.error e, st₃)
                        | (Except.ok ret, st₃) =>
                            (Except.ok (),
                              saveDelivered rc.id msg.message_id
                                (ret.filterMap id) st₃)

/-- The recall-target resolution of `process_onebot_notice`
(from_onebot.rs lines 455-488): `none` for self-recalls and for every
non-recall notice; otherwise the recalled message id, the display name
of the recalling user, and the resolved remote chat. -/
def resolveRecall (env : Env) (ep : Endpoint) (n : NoticeEvent) (st : St) :
    Except Err (Option (String × String × RemoteChat)) × St :=
  match n with
  | NoticeEvent.friendRecall e =>
      if e.self_id = e.user_id then (Except.ok none, st)
      else
        match env.strangerInfo ep e.user_id false with
        | none => (Except.error "failed to get_stranger_info", st)
        | some info =>
            match getRemoteChat env ep ChatType.private_ e.user_id st with
            | (Except.error err, st₁) => (Except.error err, st₁)
            | (Except.ok rc, st₁) =>
                (Except.ok (some (e.message_id, info.display_name, rc)), st₁)
  | NoticeEvent.groupRecall e =>
      match env.groupMemberInfo ep e.group_id e.user_id false with
      | none => (Except.error "failed to get_group_member_info", st)
      | some member =>
          match getRemoteChat env ep ChatType.group e.group_id st with
          | (Except.error err, st₁) => (Except.error err, st₁)
          | (Except.ok rc, st₁) =>
              (Except.ok (some (e.message_id, member.display_name, rc)), st₁)
  | NoticeEvent.other => (Except.ok none, st)

/-- The delivery-status update of `process_onebot_notice`
(from_onebot.rs lines 496-499): the row is updated by primary key. -/
def markRecalled (db : Db) (rowId : Int) : Db :=
  { db with messages := db.messages.map (fun m =>
      if m.id = rowId then { m with delivery_status := DeliveryStatus.recalled }
      else m) }

/-- `TelegramPylon::process_onebot_notice` (from_onebot.rs lines
449-520).  When the mapping exists: mark it recalled, resolve the
routing target, send the recall marker **directly through
`bot_client.send_message`** (no limiter token), and persist the marker
with a `fake:<uuid>` remote id.  When the mapping does not exist:
nothing further happens. -/
def processOnebotNotice (env : Env) (ep : Endpoint) (n : NoticeEvent)
    (st : St) : Except Err Unit × St :=
  match resolveRecall env ep n st with
  | (Except.error e, st₁) => (Except.error e, st₁)
  | (Except.ok none, st₁) => (Except.ok (), st₁)
  | (Except.ok (some (messageId, senderName, rc)), st₁) =>
      match findMessageByRemote st₁.db.messages rc.id messageId with
      | none => (Except.ok (), st₁)
      | some row =>
          let st₂ := { st₁ with db := markRecalled st₁.db row.id }
          match fetchChatAndTitle env ep rc senderName st₂ with
          | (Except.error e, st₃) => (Except.error e, st₃)
          | (Except.ok (tgChat, _, _title), st₃) =>
              let st₄ := emit (Action.rawSend tgChat.chat_id) st₃
              let msg : TgMsg :=
                { chat_id := tgChat.chat_id, msg_id := st₄.nextTgMsgId }
              let st₅ := { st₄ with nextTgMsgId := st₄.nextTgMsgId + 1 }
              let fakeId := "fake:" ++ env.freshUuid st₅.uuidCounter
              (Except.ok (),
                saveMessageByRemote rc.id fakeId msg
                  { st₅ with uuidCounter := st₅.uuidCounter + 1 })

/-- Telegram message deliveries in a trace (`send_message`,
`send_album`, and direct client sends). -/
def isSendAction : Action → Bool
  | Action.sendMessage _ => true
  | Action.sendAlbum _ => true
  | Action.rawSend _ => true
  | _ => false

/-- Number of Telegram sends in a trace. -/
def countSends (tr : List Action) : Nat :=
  (tr.filter isSendAction).length

/-- Limiter acquisitions in a trace. -/
def isAcquireAction : Action → Bool
  | Action.rateAcquire _ => true
  | _ => false

/-- Number of limiter acquisitions in a trace. -/
def countAcquires (tr : List Action) : Nat :=
  (tr.filter isAcquireAction).length

/-- A bridge send (`send_message`/`send_album`) is guarded when the
immediately preceding action acquires a limiter token for the same
chat. -/
def guardedFrom : Option Action → List Action → Bool
  | _, [] => true
  | prev, a :: rest =>
      (match a with
       | Action.sendMessage c => prev == some (Action.rateAcquire c)
       | Action.sendAlbum c => prev == some (Action.rateAcquire c)
       | _ => true) && guardedFrom (some a) rest

/-- Every bridge send in the list is immediately preceded by a limiter
acquisition for its chat. -/
def guardedActs (l : List Action) : Bool :=
  guardedFrom none l

/-- The dedup precondition: the event's remote chat is cached and a
`Message` row for `(remote_chat, remote_msg_id)` exists, so the pipeline
drops the event before any send. -/
def dedupReady (ep : Endpoint) (msg : MessageEvent) (st : St) : Prop :=
  ∃ cid rc, msg.get_chat_id = some cid ∧
    st.remoteChatCache (ep, msg.get_chat_type, cid) = some rc ∧
    findMessageByRemote st.db.messages rc.id msg.message_id ≠ none

/-- Invariant of the segment loop: a media-bearing message type implies
a non-empty media stack, and the location type implies a stored venue —
exactly what makes the `unwrap()`s of the send section safe. -/
def MediaInv (acc : LoopAcc) : Prop :=
  ((acc.msgType = TgMsgType.photo ∨ acc.msgType = TgMsgType.sticker ∨
    acc.msgType = TgMsgType.voice ∨ acc.msgType = TgMsgType.video ∨
    acc.msgType = TgMsgType.document) → acc.mediaUploaded ≠ []) ∧
  (acc.msgType = TgMsgType.location → acc.location ≠ none)

/-! ### Concrete fixtures for counterexamples and witnesses -/

/-- A QQ endpoint with self-id 10001. -/
def epQQ : Endpoint := { platform := Platform.qq, id := "10001" }

/-- A remote user named "A". -/
def cUserA : UserInfo :=
  { user_id := "42", nickname := "A", remark := none, avatar := none }

/-- A deterministic environment for concrete runs: the admin DM is chat
7777, the remote adapter knows user 42, Telegram chat resolution always
succeeds. -/
def cEnv : Env :=
  { adminId := 7777
    strangerInfo := fun _ _ _ => some cUserA
    groupInfo := fun _ _ _ => none
    groupMemberInfo := fun _ _ _ _ => none
    uploadSegment := fun _ _ => none
    unpackChat := fun _ _ => true
    createTopicId := fun _ => some 444
    jsonView := fun _ => none
    extractLocation := fun _ => none
    extractShare := fun _ => none
    replaceWechatEmoji := fun s => s
    replaceQqFace := fun s => s
    encodeText := fun s => s
    freshUuid := fun n => toString n }

/-- The `remote_chat` row for user 42. -/
def cRc : RemoteChat :=
  { id := 1, endpoint := epQQ, chat_type := ChatType.private_
    target_id := "42", name := "A" }

/-- A delivered message mapping for remote message "777". -/
def cMappedRow : MessageRow :=
  { id := 2, tg_chat_id := 7777, tg_msg_id := 50, remote_chat_id := 1
    remote_msg_id := "777", content := "", delivery_status := DeliveryStatus.sent }

/-- A fresh bridge state over the given tables: empty caches, empty
trace. -/
def freshSt (db : Db) : St :=
  { db := db, remoteChatCache := fun _ => none, tgChatCache := fun _ => false
    nextRowId := 10, nextTgMsgId := 100, uuidCounter := 0, trace := [] }

/-- State with the remote chat and the mapping for message "777". -/
def cStMapped : St :=
  freshSt { remoteChats := [cRc], archives := [], topics := []
            links := [], messages := [cMappedRow] }

/-- State that has never seen user 42's chat (empty tables). -/
def cStEmpty : St :=
  freshSt { remoteChats := [], archives := [], topics := []
            links := [], messages := [] }

/-- A friend-recall notice from user 42 for message "777". -/
def cNotice : NoticeEvent :=
  NoticeEvent.friendRecall
    { time := 0, self_id := "10001", message_id := "777", user_id := "42" }

/-- A Link binding remote chat 1 to Telegram megagroup −1001. -/
def cLink : Link :=
  { id := 3, tg_chat_type := 0b00101000, tg_chat_id := -1001
    remote_chat_id := 1 }

/-- State with that Link installed. -/
def cStLinked : St :=
  freshSt { remoteChats := [cRc], archives := [], topics := []
            links := [cLink], messages := [] }

/-- State that knows the remote chat but has no message mapping. -/
def cStKnownChat : St :=
  freshSt { remoteChats := [cRc], archives := [], topics := []
            links := [], messages := [] }

/-! ## Theorems -/

/-- Claim C1: for every inbound WebSocket handshake, the connection is
accepted if and only if the `Authorization` header equals
`"Bearer <configured token>"` (or the token is unconfigured and the
header is absent) and both `X-Self-ID` and `User-Agent` are present; an
authorization mismatch is rejected with status 401, and a missing
`X-Self-ID` or `User-Agent` with status 400. -/
theorem c1_handshake_auth (token : Option String) (h : HandshakeHeaders) :
    ((acceptConnection token h).isAccepted = true ↔
      (h.authorization = bearerOfToken token ∧
        h.xSelfId.isSome ∧ h.userAgent.isSome)) ∧
    (h.authorization ≠ bearerOfToken token →
      acceptConnection token h = HandshakeResult.rejected 401) ∧
    (h.authorization = bearerOfToken token →
      (h.xSelfId.isNone ∨ h.userAgent.isNone) →
      acceptConnection token h = HandshakeResult.rejected 400) := by
  obtain ⟨a, s, u⟩ := h
  refine ⟨?_, ?_, ?_⟩
  · cases s <;> cases u <;>
      by_cases hauth : a = bearerOfToken token <;>
        simp [acceptConnection, hauth, HandshakeResult.isAccepted]
  · intro hauth
    simp only [acceptConnection]
    rw [if_pos hauth]
  · intro hauth hmiss
    cases s <;> cases u <;>
      simp_all [acceptConnection, HandshakeResult.isAccepted]

/-- Witness for C1 at a concrete handshake: configured token `"secret"`,
headers `Authorization: Bearer secret`, `X-Self-ID: 10001`,
`User-Agent: LLOneBot x`. -/
theorem c1_handshake_auth_witness :
    ((acceptConnection (some "secret")
        { authorization := some "Bearer secret"
          xSelfId := some "10001"
          userAgent := some "LLOneBot x" }).isAccepted = true ↔
      ((some "Bearer secret" : Option String) = bearerOfToken (some "secret") ∧
        (some "10001" : Option String).isSome ∧
        (some "LLOneBot x" : Option String).isSome)) ∧
    ((some "Bearer secret" : Option String) ≠ bearerOfToken (some "secret") →
      acceptConnection (some "secret")
        { authorization := some "Bearer secret"
          xSelfId := some "10001"
          userAgent := some "LLOneBot x" } = HandshakeResult.rejected 401) ∧
    ((some "Bearer secret" : Option String) = bearerOfToken (some "secret") →
      ((some "10001" : Option String).isNone ∨
        (some "LLOneBot x" : Option String).isNone) →
      acceptConnection (some "secret")
        { authorization := some "Bearer secret"
          xSelfId := some "10001"
          userAgent := some "LLOneBot x" } = HandshakeResult.rejected 400) :=
  c1_handshake_auth (some "secret")
    { authorization := some "Bearer secret"
      xSelfId := some "10001"
      userAgent := some "LLOneBot x" }

/-- Claim C3: every generated echo is unique within a process lifetime
(the counter starts at 1, so the first call yields 1 and any two of the
first `2^64` calls yield distinct echoes), and a response whose echo is
registered in the pending table is delivered to exactly one waiter with
the entry removed, while a response with an unknown echo is dropped with
the table unchanged. -/
theorem c3_echo_correlation :
    generateEcho 0 = 1 ∧
    (∀ i j : Nat, i < 2 ^ 64 → j < 2 ^ 64 → i ≠ j →
      generateEcho i ≠ generateEcho j) ∧
    (∀ (pending : PendingMap) (echo : String) (w : Nat),
      pending echo = some w →
        (handleResponse pending echo).2 = [(w, echo)] ∧
        (handleResponse pending echo).1 echo = none ∧
        (∀ e, e ≠ echo → (handleResponse pending echo).1 e = pending e)) ∧
    (∀ (pending : PendingMap) (echo : String),
      pending echo = none →
        (handleResponse pending echo).2 = [] ∧
        (handleResponse pending echo).1 = pending) := by
  refine ⟨rfl, ?_, ?_, ?_⟩
  · intro i j hi hj hne
    unfold generateEcho
    intro h
    rcases Nat.lt_or_ge (1 + i) (2 ^ 64) with hlt | hge
    · rcases Nat.lt_or_ge (1 + j) (2 ^ 64) with hlt' | hge'
      · rw [Nat.mod_eq_of_lt hlt, Nat.mod_eq_of_lt hlt'] at h
        omega
      · have hj' : j = 2 ^ 64 - 1 := by omega
        have : (1 + j) % 2 ^ 64 = 0 := by
          subst hj'
          simp [Nat.add_sub_cancel' (by norm_num : 1 ≤ 2 ^ 64)]
        rw [Nat.mod_eq_of_lt hlt] at h
        omega
    · have hi' : i = 2 ^ 64 - 1 := by omega
      have h0 : (1 + i) % 2 ^ 64 = 0 := by
        subst hi'
        simp [Nat.add_sub_cancel' (by norm_num : 1 ≤ 2 ^ 64)]
      rcases Nat.lt_or_ge (1 + j) (2 ^ 64) with hlt' | hge'
      · rw [h0, Nat.mod_eq_of_lt hlt'] at h
        omega
      · omega
  · intro pending echo w hw
    unfold handleResponse
    rw [hw]
    refine ⟨rfl, by simp, ?_⟩
    intro e he
    simp [he]
  · intro pending echo hnone
    unfold handleResponse
    rw [hnone]
    exact ⟨rfl, rfl⟩

/-- Witness for C3 at concrete values: call indices 0 and 1, and a
one-entry pending table keyed `"7"`. -/
theorem c3_echo_correlation_witness :
    generateEcho 0 ≠ generateEcho 1 ∧
    (handleResponse (fun e => if e = "7" then some 5 else none) "7").2 =
      [(5, "7")] ∧
    (handleResponse (fun e => if e = "7" then some 5 else none) "7").1 "7" =
      none := by
  refine ⟨?_, ?_, ?_⟩
  · exact c3_echo_correlation.2.1 0 1 (by norm_num) (by norm_num)
      (by norm_num)
  · exact (c3_echo_correlation.2.2.1
      (fun e => if e = "7" then some 5 else none) "7" 5 (by simp)).1
  · exact (c3_echo_correlation.2.2.1
      (fun e => if e = "7" then some 5 else none) "7" 5 (by simp)).2.1

/-- Counterexample to claim C8 as stated: after exactly 100 successful
documents (with no time elapsed since the last commit), "at least 100
documents have accumulated", yet the writer has committed zero times —
the code commits only when `added_docs > 100`. -/
theorem c8_commit_policy_counterexample :
    (writerRun { addedDocs := 0, commitTimestamp := 0 }
        (List.replicate 100 (0, WriterInput.doc true))).2 = 0 ∧
    (writerRun { addedDocs := 0, commitTimestamp := 0 }
        (List.replicate 100 (0, WriterInput.doc true))).1.addedDocs = 100 := by
  constructor <;> decide

/-- Claim C8, amended: upon processing a document the writer commits
exactly when strictly more than 100 documents have accumulated since the
last commit or strictly more than 30 seconds have elapsed since the last
commit (resetting both); an explicit flush request always commits once,
acknowledges, and terminates the loop. -/
theorem c8_commit_policy (s : WriterState) (now : Nat) :
    (∀ addOk,
      (writerStep s now (WriterInput.doc addOk)).committed = true ↔
        (s.addedDocs + (if addOk then 1 else 0) > COMMIT_RATE ∨
          now - s.commitTimestamp > COMMIT_TIME_MS)) ∧
    (writerStep s now WriterInput.commitRequest).committed = true ∧
    (writerStep s now WriterInput.commitRequest).acked = true ∧
    (writerStep s now WriterInput.commitRequest).terminated = true := by
  refine ⟨?_, rfl, rfl, rfl⟩
  intro addOk
  by_cases h : s.addedDocs + (if addOk then 1 else 0) > COMMIT_RATE ∨
      now - s.commitTimestamp > COMMIT_TIME_MS
  · simp [writerStep, h]
  · simp only [writerStep, h, if_false]
    simp [h]

/-- Witness for C8 at a concrete state: 101 accumulated documents force
a commit on the next document. -/
theorem c8_commit_policy_witness :
    ((writerStep { addedDocs := 101, commitTimestamp := 0 } 5
        (WriterInput.doc true)).committed = true ↔
      (101 + 1 > COMMIT_RATE ∨ 5 - 0 > COMMIT_TIME_MS)) ∧
    (writerStep { addedDocs := 101, commitTimestamp := 0 } 5
        WriterInput.commitRequest).committed = true := by
  refine ⟨?_, ?_⟩
  · simpa using
      (c8_commit_policy { addedDocs := 101, commitTimestamp := 0 } 5).1 true
  · exact (c8_commit_policy { addedDocs := 101, commitTimestamp := 0 } 5).2.1

/-- Counterexample to claim C5 as stated: the payload given in the claim
does not decode at all — `MessageEvent` requires the `time` (and
`sub_type`) fields, which the payload lacks, so the event variant (and
hence the whole untagged `Payload`) fails. -/
theorem c5_numeric_id_counterexample :
    decodePayload c5Json =
      Except.error "data did not match any variant of untagged enum Payload" ∧
    decodeEvent c5Json = Except.error "missing field: time" :=
  ⟨rfl, rfl⟩

/-- Claim C5, amended: with the required `time` and `sub_type` fields
added, the payload decodes to a `MessageEvent` whose integer id fields
are normalized to strings: `self_id = "10001"`, `user_id = "42"`,
`message_id = "7"`. -/
theorem c5_numeric_id_tolerance :
    decodePayload c5JsonFixed =
      Except.ok (Payload.event (Event.message c5Expected)) ∧
    c5Expected.self_id = "10001" ∧
    c5Expected.user_id = "42" ∧
    c5Expected.message_id = "7" :=
  ⟨rfl, rfl, rfl, rfl⟩

/-- Counterexample to claim C9 as stated: for a `message_type` that is
neither `"private"` nor `"group"` (here `"channel"`), the resolved chat
type is indeed `Private`, but the resolved chat id is the empty string,
not the event's `user_id` (`"42"`). -/
theorem c9_chat_resolution_counterexample :
    c9CexEvent.get_chat_type = ChatType.private_ ∧
    c9CexEvent.user_id = "42" ∧
    c9CexEvent.get_chat_id = some "" ∧
    c9CexEvent.get_chat_id ≠ some c9CexEvent.user_id := by
  refine ⟨rfl, rfl, rfl, by decide⟩

/-- Claim C9, amended: for `message_type = "private"` the resolved chat
type is `Private` and the id is the `target_id` when present and
non-empty, else the `user_id`; for `message_type = "group"` the type is
`Group` and the id is the `group_id` (the source unwraps it, modelled as
`Option`); for any other `message_type` the type is `Private` and the
resolved id is the empty string. -/
theorem c9_chat_resolution (e : MessageEvent) :
    (e.message_type = "private" →
      e.get_chat_type = ChatType.private_ ∧
      ((∃ t, e.target_id = some t ∧ t ≠ "" ∧ e.get_chat_id = some t) ∨
        ((e.target_id = none ∨ e.target_id = some "") ∧
          e.get_chat_id = some e.user_id))) ∧
    (e.message_type = "group" →
      e.get_chat_type = ChatType.group ∧ e.get_chat_id = e.group_id) ∧
    (e.message_type ≠ "private" → e.message_type ≠ "group" →
      e.get_chat_type = ChatType.private_ ∧ e.get_chat_id = some "") := by
  refine ⟨?_, ?_, ?_⟩
  · intro h
    refine ⟨?_, ?_⟩
    · unfold MessageEvent.get_chat_type
      rw [if_neg (by rw [h]; decide)]
    · unfold MessageEvent.get_chat_id
      rw [if_pos h]
      rcases ht : e.target_id with _ | t
      · exact Or.inr ⟨Or.inl rfl, rfl⟩
      · by_cases hte : t = ""
        · subst hte
          refine Or.inr ⟨Or.inr rfl, ?_⟩
          show (if ("" : String) ≠ "" then some "" else some e.user_id) =
            some e.user_id
          rw [if_neg (by simp)]
        · refine Or.inl ⟨t, rfl, hte, ?_⟩
          show (if t ≠ "" then some t else some e.user_id) = some t
          rw [if_pos hte]
  · intro h
    refine ⟨?_, ?_⟩
    · unfold MessageEvent.get_chat_type
      rw [if_pos h]
    · unfold MessageEvent.get_chat_id
      rw [if_neg (by rw [h]; decide), if_pos h]
  · intro h1 h2
    refine ⟨?_, ?_⟩
    · unfold MessageEvent.get_chat_type
      rw [if_neg h2]
    · unfold MessageEvent.get_chat_id
      rw [if_neg h1, if_neg h2]

/-- Witness for C9 at a concrete private event carrying
`target_id = "99"`, discharging the `message_type` hypothesis. -/
theorem c9_chat_resolution_witness :
    c9PrivEvent.get_chat_type = ChatType.private_ ∧
    ((∃ t, c9PrivEvent.target_id = some t ∧ t ≠ "" ∧
        c9PrivEvent.get_chat_id = some t) ∨
      ((c9PrivEvent.target_id = none ∨ c9PrivEvent.target_id = some "") ∧
        c9PrivEvent.get_chat_id = some c9PrivEvent.user_id)) :=
  (c9_chat_resolution c9PrivEvent).1 rfl

/-- Splitting at the last dot reconstructs the original list. -/
theorem splitLastDot_eq (cs : List Char) :
    ∀ b a, splitLastDot cs = some (b, a) → cs = b ++ '.' :: a := by
  induction cs with
  | nil =>
      intro b a h
      simp [splitLastDot] at h
  | cons c cs ih =>
      intro b a h
      simp only [splitLastDot] at h
      split at h
      · rename_i b' a' heq
        injection h with h'
        have hb : c :: b' = b := congrArg Prod.fst h'
        have ha : a' = a := congrArg Prod.snd h'
        calc c :: cs = c :: (b' ++ '.' :: a') := by rw [ih b' a' heq]
          _ = (c :: b') ++ '.' :: a' := rfl
          _ = b ++ '.' :: a := by rw [hb, ha]
      · rename_i heq
        split at h
        · rename_i hc
          injection h with h'
          have hb : ([] : List Char) = b := congrArg Prod.fst h'
          have ha : cs = a := congrArg Prod.snd h'
          rw [← hb, ← ha, hc]
          rfl
        · cases h

/-- Splitting a file name's characters reconstructs them. -/
theorem splitFileCore_eq (l b a : List Char)
    (h : splitFileCore l = some (b, a)) : l = b ++ '.' :: a := by
  cases l with
  | nil => simp [splitFileCore] at h
  | cons c rest =>
      simp only [splitFileCore] at h
      split at h
      · cases h
      · rename_i b' a' heq
        injection h with h'
        have hb : c :: b' = b := congrArg Prod.fst h'
        have ha : a' = a := congrArg Prod.snd h'
        calc c :: rest = c :: (b' ++ '.' :: a') := by
              rw [splitLastDot_eq rest b' a' heq]
          _ = (c :: b') ++ '.' :: a' := rfl
          _ = b ++ '.' :: a := by rw [hb, ha]

/-- When `splitFileAtDot` finds an extension, the file name is
`stem ++ "." ++ extension`. -/
theorem splitFileAtDot_some (f st c : String)
    (h : splitFileAtDot f = (st, some c)) : f = st ++ "." ++ c := by
  unfold splitFileAtDot at h
  split at h
  · have := congrArg Prod.snd h
    simp at this
  · split at h
    · have := congrArg Prod.snd h
      simp at this
    · rename_i b a heq
      have hst : (⟨b⟩ : String) = st := congrArg Prod.fst h
      have hc : (⟨a⟩ : String) = c :=
        Option.some.inj (congrArg Prod.snd h)
      have hdata : f.data = b ++ '.' :: a := splitFileCore_eq f.data b a heq
      apply String.ext
      rw [hdata, ← hst, ← hc]
      simp [String.data_append]

/-- When `splitFileAtDot` finds no extension, the stem is the whole
file name. -/
theorem splitFileAtDot_none (f st : String)
    (h : splitFileAtDot f = (st, none)) : st = f := by
  unfold splitFileAtDot at h
  split at h
  · exact (congrArg Prod.fst h).symm
  · split at h
    · exact (congrArg Prod.fst h).symm
    · have := congrArg Prod.snd h
      simp at this

/-- `eq_ignore_ascii_case` holds on equal strings. -/
theorem eqIgnoreAsciiCase_refl (s : String) :
    eqIgnoreAsciiCase s s = true := by
  unfold eqIgnoreAsciiCase
  exact beq_self_eq_true _

/-- Appending a dot and a non-empty extension strictly lengthens a
string. -/
theorem append_dot_ne (st ext f : String) (hlen : f.length = st.length) :
    st ++ "." ++ ext ≠ f := by
  intro h
  have hl := congrArg String.length h
  rw [String.length_append, String.length_append] at hl
  have hdot : (".").length = 1 := rfl
  rw [hdot] at hl
  omega

/-- Counterexample to claim C10 as stated: the empty filename has no
extension, and no extension equals the sniffed extension `"png"`, yet
`fix_filename` returns it unchanged (there is no file-name component, so
`set_extension` does nothing). -/
theorem c10_fix_filename_counterexample :
    fix_filename "" "png" = some "" ∧ extensionOf "" = none := by
  constructor <;> rfl

/-- Claim C10, amended: for a slash-free filename that has a file-name
component (not `""`, `"."` or `".."`) and a non-empty sniffed extension,
`fix_filename` returns the filename unchanged exactly when its current
extension equals the sniffed one ignoring ASCII case; otherwise it
returns the stem with the sniffed extension appended (replacing the old
extension, or extending the name when there was none), which differs
from the input.  Filenames without a file-name component are returned
unchanged. -/
theorem c10_fix_filename (f ext : String)
    (_hslash : '/' ∉ f.data) (hf0 : f ≠ "") (hf1 : f ≠ ".") (hf2 : f ≠ "..")
    (hext : ext ≠ "") (_hextslash : '/' ∉ ext.data) :
    (∀ c, extensionOf f = some c → eqIgnoreAsciiCase c ext = true →
      fix_filename f ext = some f) ∧
    (∀ c, extensionOf f = some c → eqIgnoreAsciiCase c ext = false →
      fix_filename f ext = some ((splitFileAtDot f).1 ++ "." ++ ext) ∧
        (splitFileAtDot f).1 ++ "." ++ ext ≠ f) ∧
    (extensionOf f = none →
      fix_filename f ext = some (f ++ "." ++ ext) ∧ f ++ "." ++ ext ≠ f) := by
  have hfn : fileNameOf f = some f := by
    unfold fileNameOf
    rw [if_neg (by simp [hf0, hf1, hf2])]
  have hset : setExtension f ext = (splitFileAtDot f).1 ++ "." ++ ext := by
    unfold setExtension
    rw [hfn]
    show (splitFileAtDot f).1 ++ (if ext = "" then "" else "." ++ ext) = _
    rw [if_neg hext]
    apply String.ext
    simp [String.data_append]
  refine ⟨?_, ?_, ?_⟩
  · intro c hc heq
    unfold fix_filename
    rw [hc]
    show (if eqIgnoreAsciiCase c ext = true then some f
      else some (setExtension f ext)) = some f
    rw [if_pos heq]
  · intro c hc hne
    have hext2 : (splitFileAtDot f).2 = some c := by
      unfold extensionOf at hc
      rw [hfn] at hc
      exact hc
    have hsplit : splitFileAtDot f = ((splitFileAtDot f).1, some c) := by
      rw [← hext2]
    have hf : f = (splitFileAtDot f).1 ++ "." ++ c :=
      splitFileAtDot_some f _ c hsplit
    constructor
    · unfold fix_filename
      rw [hc]
      show (if eqIgnoreAsciiCase c ext = true then some f
        else some (setExtension f ext)) = _
      rw [if_neg (by simp [hne]), hset]
    · intro h
      have h2 : (splitFileAtDot f).1 ++ "." ++ ext =
          (splitFileAtDot f).1 ++ "." ++ c := h.trans hf
      have hdata := congrArg String.data h2
      simp only [String.data_append] at hdata
      have : ext.data = c.data := List.append_cancel_left hdata
      have hce : c = ext := String.ext this.symm
      rw [hce] at hne
      rw [eqIgnoreAsciiCase_refl] at hne
      exact absurd hne (by simp)
  · intro hc
    have hext2 : (splitFileAtDot f).2 = none := by
      unfold extensionOf at hc
      rw [hfn] at hc
      exact hc
    have hst : (splitFileAtDot f).1 = f :=
      splitFileAtDot_none f _ (by rw [← hext2])
    constructor
    · unfold fix_filename
      rw [hc]
      show some (setExtension f ext) = some (f ++ "." ++ ext)
      rw [hset, hst]
    · exact append_dot_ne f ext f rfl

/-- Witness for C10 at concrete filenames: `report.PDF` with sniffed
`pdf` is kept, `photo.gif` with sniffed `webp` is rewritten. -/
theorem c10_fix_filename_witness :
    fix_filename "report.PDF" "pdf" = some "report.PDF" ∧
    fix_filename "photo.gif" "webp" = some "photo.webp" := by
  constructor
  · exact (c10_fix_filename "report.PDF" "pdf" (by decide) (by decide)
      (by decide) (by decide) (by decide) (by decide)).1 "PDF" rfl (by decide)
  · have h := ((c10_fix_filename "photo.gif" "webp" (by decide) (by decide)
      (by decide) (by decide) (by decide) (by decide)).2.1 "gif" rfl
      (by decide)).1
    rw [h]
    decide

/-- `get_remote_chat` touches no table other than `remote_chat` and
emits no action. -/
theorem getRemoteChat_db_frame (env : Env) (ep : Endpoint) (ct : ChatType)
    (tid : String) (st : St) :
    (getRemoteChat env ep ct tid st).2.db.links = st.db.links ∧
    (getRemoteChat env ep ct tid st).2.db.archives = st.db.archives ∧
    (getRemoteChat env ep ct tid st).2.db.topics = st.db.topics ∧
    (getRemoteChat env ep ct tid st).2.db.messages = st.db.messages ∧
    (getRemoteChat env ep ct tid st).2.trace = st.trace ∧
    (getRemoteChat env ep ct tid st).2.tgChatCache = st.tgChatCache ∧
    (getRemoteChat env ep ct tid st).2.nextTgMsgId = st.nextTgMsgId := by
  unfold getRemoteChat
  repeat' split
  all_goals simp [saveRemotePrivateChat, saveRemoteGroupChat]

/-- `get_remote_chat` inserts at most one `remote_chat` row. -/
theorem getRemoteChat_remoteChats (env : Env) (ep : Endpoint)
    (ct : ChatType) (tid : String) (st : St) :
    (getRemoteChat env ep ct tid st).2.db.remoteChats = st.db.remoteChats ∨
    ∃ r, (getRemoteChat env ep ct tid st).2.db.remoteChats =
      st.db.remoteChats ++ [r] := by
  unfold getRemoteChat
  repeat' split
  all_goals try exact Or.inl rfl
  all_goals simp [saveRemotePrivateChat, saveRemoteGroupChat]

/-- `get_remote_chat` never evicts a cache entry. -/
theorem getRemoteChat_cache_mono (env : Env) (ep : Endpoint) (ct : ChatType)
    (tid : String) (st : St) (k : Endpoint × ChatType × String)
    (v : RemoteChat) (h : st.remoteChatCache k = some v) :
    (getRemoteChat env ep ct tid st).2.remoteChatCache k = some v := by
  unfold getRemoteChat
  split
  · exact h
  · rename_i hnone
    split
    · simp only [cacheInsert]
      split
      · rename_i hk
        rw [hk] at h
        rw [h] at hnone
        cases hnone
      · exact h
    · split
      · split
        · exact h
        · simp only [cacheInsert, saveRemotePrivateChat]
          split
          · rename_i hk
            rw [hk] at h
            rw [h] at hnone
            cases hnone
          · exact h
      · split
        · exact h
        · simp only [cacheInsert, saveRemoteGroupChat]
          split
          · rename_i hk
            rw [hk] at h
            rw [h] at hnone
            cases hnone
          · exact h

/-- Every successful `get_remote_chat` leaves the result in the cache
under its key. -/
theorem getRemoteChat_ok_cache (env : Env) (ep : Endpoint) (ct : ChatType)
    (tid : String) (st : St) (rc : RemoteChat) (st' : St)
    (h : getRemoteChat env ep ct tid st = (Except.ok rc, st')) :
    st'.remoteChatCache (ep, ct, tid) = some rc := by
  unfold getRemoteChat at h
  split at h
  · rename_i rc' hc
    injection h with h1 h2
    injection h1 with h3
    rw [← h2, ← h3]
    exact hc
  · split at h
    · rename_i m hdb
      injection h with h1 h2
      injection h1 with h3
      rw [← h2, ← h3]
      simp [cacheInsert]
    · split at h
      · split at h
        · injection h with h1 _
          injection h1
        · injection h with h1 h2
          injection h1 with h3
          rw [← h2, ← h3]
          simp [cacheInsert]
      · split at h
        · injection h with h1 _
          injection h1
        · injection h with h1 h2
          injection h1 with h3
          rw [← h2, ← h3]
          simp [cacheInsert]

/-- `get_tg_chat` changes nothing but the Telegram-chat cache. -/
theorem getTgChat_frame (env : Env) (pt : PackedType) (cid : Int) (st : St) :
    (getTgChat env pt cid st).2.db = st.db ∧
    (getTgChat env pt cid st).2.trace = st.trace ∧
    (getTgChat env pt cid st).2.remoteChatCache = st.remoteChatCache ∧
    (getTgChat env pt cid st).2.nextRowId = st.nextRowId ∧
    (getTgChat env pt cid st).2.nextTgMsgId = st.nextTgMsgId ∧
    (getTgChat env pt cid st).2.uuidCounter = st.uuidCounter := by
  unfold getTgChat
  repeat' split
  all_goals simp

/-- A successful `get_tg_chat` returns the chat named by its
arguments. -/
theorem getTgChat_ok_val (env : Env) (pt : PackedType) (cid : Int) (st : St)
    (c : TgChat) (st' : St)
    (h : getTgChat env pt cid st = (Except.ok c, st')) :
    c = { packed_type := pt, chat_id := cid } := by
  unfold getTgChat at h
  split at h
  · injection h with h1 _
    injection h1 with h3
    exact h3.symm
  · split at h
    · injection h with h1 _
      injection h1 with h3
      exact h3.symm
    · injection h with h1 _
      injection h1

/-- `get_or_create_topic` touches no table other than `topic`, emits no
action, and keeps both caches. -/
theorem getOrCreateTopic_frame (env : Env) (ar : Archive) (rc : RemoteChat)
    (st : St) :
    (getOrCreateTopic env ar rc st).2.db.links = st.db.links ∧
    (getOrCreateTopic env ar rc st).2.db.archives = st.db.archives ∧
    (getOrCreateTopic env ar rc st).2.db.messages = st.db.messages ∧
    (getOrCreateTopic env ar rc st).2.db.remoteChats = st.db.remoteChats ∧
    (getOrCreateTopic env ar rc st).2.trace = st.trace ∧
    (getOrCreateTopic env ar rc st).2.remoteChatCache = st.remoteChatCache ∧
    (getOrCreateTopic env ar rc st).2.nextTgMsgId = st.nextTgMsgId := by
  unfold getOrCreateTopic
  split
  · exact ⟨rfl, rfl, rfl, rfl, rfl, rfl, rfl⟩
  · split
    · rename_i e st₁ heq
      have h2 : st₁ = (getTgChat env PackedType.megagroup ar.tg_chat_id st).2 :=
        (congrArg Prod.snd heq).symm
      obtain ⟨hdb, htr, hcache, -, hmsg, -⟩ :=
        getTgChat_frame env PackedType.megagroup ar.tg_chat_id st
      rw [h2, hdb, htr, hcache, hmsg]
      exact ⟨rfl, rfl, rfl, rfl, rfl, rfl, rfl⟩
    · rename_i x st₁ heq
      have h2 : st₁ = (getTgChat env PackedType.megagroup ar.tg_chat_id st).2 :=
        (congrArg Prod.snd heq).symm
      obtain ⟨hdb, htr, hcache, -, hmsg, -⟩ :=
        getTgChat_frame env PackedType.megagroup ar.tg_chat_id st
      split
      · rw [h2, hdb, htr, hcache, hmsg]
        exact ⟨rfl, rfl, rfl, rfl, rfl, rfl, rfl⟩
      · refine ⟨?_, ?_, ?_, ?_, ?_, ?_, ?_⟩ <;>
          simp [h2, hdb, htr, hcache, hmsg]

/-- A successful `get_or_create_topic` leaves a topic row for the
remote chat whose Telegram topic id is the returned one. -/
theorem getOrCreateTopic_ok (env : Env) (ar : Archive) (rc : RemoteChat)
    (st : St) (t : Int) (st' : St)
    (h : getOrCreateTopic env ar rc st = (Except.ok t, st')) :
    ∃ topic, findTopicByRemote st'.db.topics rc.id = some topic ∧
      topic.tg_topic_id = t := by
  unfold getOrCreateTopic at h
  split at h
  · rename_i topic hfind
    injection h with h1 h2
    injection h1 with h3
    exact ⟨topic, by rw [← h2]; exact hfind, h3⟩
  · rename_i hfindNone
    split at h
    · injection h with h1 _
      injection h1
    · rename_i x st₁ heq
      split at h
      · injection h with h1 _
        injection h1
      · rename_i topicId hcreate
        injection h with h1 h2
        injection h1 with h3
        have htop : st₁.db.topics = st.db.topics := by
          have h4 : st₁ =
              (getTgChat env PackedType.megagroup ar.tg_chat_id st).2 :=
            (congrArg Prod.snd heq).symm
          rw [h4, (getTgChat_frame env PackedType.megagroup ar.tg_chat_id st).1]
        refine ⟨{ id := st₁.nextRowId, archive_id := ar.id
                  tg_topic_id := topicId, remote_chat_id := rc.id }, ?_, h3⟩
        rw [← h2]
        show findTopicByRemote (st₁.db.topics ++ [_]) rc.id = _
        unfold findTopicByRemote at hfindNone ⊢
        rw [List.find?_append, htop, hfindNone]
        simp

/-- Claim C2: when relaying a remote message event to Telegram, the
routing target follows the fixed priority Link ≻ Archive+Topic ≻ admin
DM: a Link routes to the linked Telegram chat with no topic reply-to and
caption prefix `"<sender>:"`; otherwise an Archive for the endpoint
routes to its forum supergroup with the remote chat's topic as reply-to;
otherwise the admin DM is used with caption prefix `"👤 <name>:"` for
private chats and `"👥 <sender> [<group-name>]:"` for group chats. -/
theorem c2_routing_priority (env : Env) (ep : Endpoint) (rc : RemoteChat)
    (sender : String) (st : St) (out : TgChat × Option Int × String)
    (st' : St)
    (h : fetchChatAndTitle env ep rc sender st = (Except.ok out, st')) :
    (∀ link, findLinkByRemote st.db.links rc.id = some link →
      out.1 = { packed_type := packedTypeOfByte link.tg_chat_type,
                chat_id := link.tg_chat_id } ∧
      out.2.1 = none ∧ out.2.2 = sender ++ ":") ∧
    (findLinkByRemote st.db.links rc.id = none →
      ∀ archive, findArchiveByEndpoint st.db.archives ep = some archive →
      out.1 = { packed_type := PackedType.megagroup,
                chat_id := archive.tg_chat_id } ∧
      (∃ topic, findTopicByRemote st'.db.topics rc.id = some topic ∧
        out.2.1 = some topic.tg_topic_id) ∧
      out.2.2 = sender ++ ":") ∧
    (findLinkByRemote st.db.links rc.id = none →
      findArchiveByEndpoint st.db.archives ep = none →
      out.1 = { packed_type := PackedType.user, chat_id := env.adminId } ∧
      out.2.1 = none ∧
      (∃ target st₁,
        getRemoteChat env ep rc.chat_type rc.target_id st =
          (Except.ok target, st₁) ∧
        out.2.2 = (match rc.chat_type with
          | ChatType.private_ => "👤 " ++ target.name ++ ":"
          | ChatType.group =>
              "👥 " ++ sender ++ " [" ++ target.name ++ "]:"))) := by
  unfold fetchChatAndTitle at h
  split at h
  · injection h with h1 _
    injection h1
  · rename_i target st₁ hgrc
    have hst₁ : st₁ = (getRemoteChat env ep rc.chat_type rc.target_id st).2 :=
      (congrArg Prod.snd hgrc).symm
    have hlinks : st₁.db.links = st.db.links := by
      rw [hst₁]
      exact (getRemoteChat_db_frame env ep rc.chat_type rc.target_id st).1
    have harchives : st₁.db.archives = st.db.archives := by
      rw [hst₁]
      exact (getRemoteChat_db_frame env ep rc.chat_type rc.target_id st).2.1
    split at h
    · rename_i link hlink
      rw [hlinks] at hlink
      split at h
      · injection h with h1 _
        injection h1
      · rename_i chat st₂ htg
        injection h with h1 h2
        injection h1 with h3
        subst h3
        subst h2
        refine ⟨?_, ?_, ?_⟩
        · intro link' hlink'
          obtain hl := Option.some.inj (hlink.symm.trans hlink')
          subst hl
          exact ⟨getTgChat_ok_val env _ _ st₁ chat _ htg, rfl, rfl⟩
        · intro hnone
          rw [hlink] at hnone
          cases hnone
        · intro hnone _
          rw [hlink] at hnone
          cases hnone
    · rename_i hlinkNone
      rw [hlinks] at hlinkNone
      split at h
      · rename_i archive harch
        rw [harchives] at harch
        split at h
        · injection h with h1 _
          injection h1
        · rename_i topicId st₂ htopic
          split at h
          · injection h with h1 _
            injection h1
          · rename_i chat st₃ htg
            injection h with h1 h2
            injection h1 with h3
            subst h3
            subst h2
            refine ⟨?_, ?_, ?_⟩
            · intro link hlink
              rw [hlink] at hlinkNone
              cases hlinkNone
            · intro _ archive' harch'
              obtain ha := Option.some.inj (harch.symm.trans harch')
              subst ha
              obtain ⟨topic, htopic', hid⟩ :=
                getOrCreateTopic_ok env archive rc st₁ topicId st₂ htopic
              have hdb₃ : st₃.db = st₂.db := by
                have h4 : st₃ =
                    (getTgChat env PackedType.megagroup archive.tg_chat_id
                      st₂).2 := (congrArg Prod.snd htg).symm
                rw [h4,
                  (getTgChat_frame env PackedType.megagroup
                    archive.tg_chat_id st₂).1]
              refine ⟨getTgChat_ok_val env _ _ st₂ chat _ htg,
                ⟨topic, ?_, by rw [hid]⟩, rfl⟩
              rw [hdb₃]
              exact htopic'
            · intro _ harchNone
              rw [harch] at harchNone
              cases harchNone
      · rename_i harchNone
        rw [harchives] at harchNone
        split at h
        · injection h with h1 _
          injection h1
        · rename_i chat st₂ htg
          injection h with h1 h2
          injection h1 with h3
          subst h3
          subst h2
          refine ⟨?_, ?_, ?_⟩
          · intro link hlink
            rw [hlink] at hlinkNone
            cases hlinkNone
          · intro _ archive harch
            rw [harch] at harchNone
            cases harchNone
          · intro _ _
            exact ⟨getTgChat_ok_val env _ _ st₁ chat _ htg, rfl,
              target, st₁, hgrc, rfl⟩

/-- Witness for C2 at a concrete linked state: remote chat 1 is linked
to megagroup −1001, so the event routes there with no topic and caption
prefix `"X:"`. -/
theorem c2_routing_priority_witness :
    ((TgChat.mk PackedType.megagroup (-1001), (none : Option Int),
        "X:" ).1 : TgChat) =
      { packed_type := packedTypeOfByte cLink.tg_chat_type,
        chat_id := cLink.tg_chat_id } ∧
    ((TgChat.mk PackedType.megagroup (-1001), (none : Option Int),
        "X:" ).2.1 : Option Int) = none ∧
    ((TgChat.mk PackedType.megagroup (-1001), (none : Option Int),
        "X:" ).2.2 : String) = "X:" :=
  (c2_routing_priority cEnv epQQ cRc "X" cStLinked
      (TgChat.mk PackedType.megagroup (-1001), (none : Option Int), "X:")
      (fetchChatAndTitle cEnv epQQ cRc "X" cStLinked).2 rfl).1 cLink rfl

/-- Counterexample to claim C4 as stated: handling a recall notice for a
mapped message sends the recall marker through `bot_client.send_message`
directly — the trace holds one Telegram send and zero limiter
acquisitions. -/
theorem c4_rate_limit_counterexample :
    (processOnebotNotice cEnv epQQ cNotice cStMapped).1 = Except.ok () ∧
    (processOnebotNotice cEnv epQQ cNotice cStMapped).2.trace =
      [Action.rawSend 7777] ∧
    countSends (processOnebotNotice cEnv epQQ cNotice cStMapped).2.trace = 1 ∧
    countAcquires
      (processOnebotNotice cEnv epQQ cNotice cStMapped).2.trace = 0 := by
  refine ⟨rfl, rfl, rfl, rfl⟩

/-- Counterexample to claim C7 as stated: a recall notice for a message
with no mapping, arriving for a remote chat the bridge has never seen,
succeeds but inserts a `remote_chat` row — the handling is not
write-free. -/
theorem c7_recall_no_mapping_counterexample :
    (processOnebotNotice cEnv epQQ cNotice cStEmpty).1 = Except.ok () ∧
    cStEmpty.db.remoteChats = [] ∧
    (processOnebotNotice cEnv epQQ cNotice cStEmpty).2.db.remoteChats ≠
      [] := by
  refine ⟨rfl, rfl, by decide⟩

/-- Sends split over list append. -/
theorem countSends_append (a b : List Action) :
    countSends (a ++ b) = countSends a + countSends b := by
  simp [countSends, List.filter_append]

/-- A list of index submissions contains no sends. -/
theorem countSends_indexOnly (ds : List Action)
    (h : ∀ a ∈ ds, ∃ x y, a = Action.indexDoc x y) : countSends ds = 0 := by
  induction ds with
  | nil => rfl
  | cons d rest ih =>
      obtain ⟨x, y, hd⟩ := h d (by simp)
      subst hd
      simp only [countSends, List.filter]
      have := ih (fun a ha => h a (by simp [ha]))
      simpa [countSends, isSendAction] using this

/-- A list of index submissions is trivially guarded. -/
theorem guardedFrom_indexOnly (ds : List Action)
    (h : ∀ a ∈ ds, ∃ x y, a = Action.indexDoc x y) :
    ∀ prev, guardedFrom prev ds = true := by
  induction ds with
  | nil => intro prev; rfl
  | cons d rest ih =>
      intro prev
      obtain ⟨x, y, hd⟩ := h d (by simp)
      subst hd
      simp only [guardedFrom, Bool.true_and]
      exact ih (fun a ha => h a (by simp [ha])) _

/-- An acquire-send pair followed by index submissions is guarded. -/
theorem guardedActs_shape (c : Int) (x : Action) (ds : List Action)
    (hx : x = Action.sendMessage c ∨ x = Action.sendAlbum c)
    (hds : ∀ a ∈ ds, ∃ u v, a = Action.indexDoc u v) :
    guardedActs (Action.rateAcquire c :: x :: ds) = true := by
  rcases hx with hx | hx <;> subst hx <;>
    simp [guardedActs, guardedFrom, guardedFrom_indexOnly ds hds]

/-- `send_telegram_message` appends exactly an acquire and a send for
the target chat and touches neither tables nor caches. -/
theorem sendTelegramMessage_spec (chat : TgChat) (st : St) :
    (sendTelegramMessage chat st).2.trace =
      st.trace ++ [Action.rateAcquire chat.chat_id,
                   Action.sendMessage chat.chat_id] ∧
    (sendTelegramMessage chat st).2.db = st.db ∧
    (sendTelegramMessage chat st).2.remoteChatCache = st.remoteChatCache := by
  refine ⟨?_, rfl, rfl⟩
  simp [sendTelegramMessage, emit]

/-- `send_telegram_album` appends exactly an acquire and an album send
for the target chat and touches neither tables nor caches. -/
theorem sendTelegramAlbum_spec (chat : TgChat) (n : Nat) (st : St) :
    (sendTelegramAlbum chat n st).2.trace =
      st.trace ++ [Action.rateAcquire chat.chat_id,
                   Action.sendAlbum chat.chat_id] ∧
    (sendTelegramAlbum chat n st).2.db = st.db ∧
    (sendTelegramAlbum chat n st).2.remoteChatCache = st.remoteChatCache ∧
    (∃ f : Nat → TgMsg, (sendTelegramAlbum chat n st).1 =
      (List.range n).map (fun i => some (f i))) := by
  refine ⟨?_, rfl, rfl,
    ⟨fun i => { chat_id := chat.chat_id, msg_id := st.nextTgMsgId + i }, ?_⟩⟩
  · simp [sendTelegramAlbum, emit]
  · unfold sendTelegramAlbum
    rfl

/-- `filterMap id` undoes a `map some`. -/
theorem filterMap_id_map_some {α β : Type} (f : α → β) (l : List α) :
    (l.map (fun i => some (f i))).filterMap id = l.map f := by
  induction l with
  | nil => rfl
  | cons a rest ih => simp [ih]

/-- A non-empty media stack can be popped. -/
theorem popLast_of_ne_nil (l : List UploadedInfo) (h : l ≠ []) :
    ∃ p, popLast l = some p := by
  unfold popLast
  cases hgl : l.getLast? with
  | none => exact absurd (List.getLast?_eq_none_iff.mp hgl) h
  | some x => exact ⟨(x, l.dropLast), rfl⟩

/-- Under the loop invariant the send section always succeeds, sends
exactly once (one acquire-then-send pair on the trace), returns at least
one delivered message, and touches neither tables nor the remote-chat
cache. -/
theorem sendConverted_spec (chat : TgChat) (acc : LoopAcc) (st : St)
    (hinv : MediaInv acc) :
    ∃ ret st',
      sendConverted chat acc st = (Except.ok ret, st') ∧
      ret.filterMap id ≠ [] ∧
      (st'.trace = st.trace ++ [Action.rateAcquire chat.chat_id,
          Action.sendMessage chat.chat_id] ∨
        st'.trace = st.trace ++ [Action.rateAcquire chat.chat_id,
          Action.sendAlbum chat.chat_id]) ∧
      st'.db = st.db ∧
      st'.remoteChatCache = st.remoteChatCache := by
  obtain ⟨hmedia, hloc⟩ := hinv
  cases hty : acc.msgType
  case text =>
    refine ⟨[some (sendTelegramMessage chat st).1],
      (sendTelegramMessage chat st).2, ?_, by simp,
      Or.inl (sendTelegramMessage_spec chat st).1, rfl, rfl⟩
    rw [sendConverted, hty]
  case html =>
    refine ⟨[some (sendTelegramMessage chat st).1],
      (sendTelegramMessage chat st).2, ?_, by simp,
      Or.inl (sendTelegramMessage_spec chat st).1, rfl, rfl⟩
    rw [sendConverted, hty]
  case photo =>
    by_cases hlen : acc.mediaUploaded.length = 1
    · refine ⟨[some (sendTelegramMessage chat st).1],
        (sendTelegramMessage chat st).2, ?_, by simp,
        Or.inl (sendTelegramMessage_spec chat st).1, rfl, rfl⟩
      rw [sendConverted, hty]
      simp [hlen]
    · have hne : acc.mediaUploaded ≠ [] := hmedia (Or.inl hty)
      refine ⟨(sendTelegramAlbum chat acc.mediaUploaded.length st).1,
        (sendTelegramAlbum chat acc.mediaUploaded.length st).2, ?_, ?_,
        Or.inr (sendTelegramAlbum_spec chat
          acc.mediaUploaded.length st).1, rfl, rfl⟩
      · rw [sendConverted, hty]
        simp [hlen]
      · obtain ⟨f, hf⟩ :=
          (sendTelegramAlbum_spec chat acc.mediaUploaded.length st).2.2.2
        rw [hf, filterMap_id_map_some]
        intro hcon
        rw [List.map_eq_nil_iff, List.range_eq_nil] at hcon
        exact hne (List.length_eq_zero.mp hcon)
  case sticker =>
    obtain ⟨p, hp⟩ := popLast_of_ne_nil _ (hmedia (Or.inr (Or.inl hty)))
    refine ⟨[some (sendTelegramMessage chat st).1],
      (sendTelegramMessage chat st).2, ?_, by simp,
      Or.inl (sendTelegramMessage_spec chat st).1, rfl, rfl⟩
    rw [sendConverted, hty, hp]
  case voice =>
    obtain ⟨p, hp⟩ := popLast_of_ne_nil _
      (hmedia (Or.inr (Or.inr (Or.inl hty))))
    refine ⟨[some (sendTelegramMessage chat st).1],
      (sendTelegramMessage chat st).2, ?_, by simp,
      Or.inl (sendTelegramMessage_spec chat st).1, rfl, rfl⟩
    rw [sendConverted, hty, hp]
  case video =>
    obtain ⟨p, hp⟩ := popLast_of_ne_nil _
      (hmedia (Or.inr (Or.inr (Or.inr (Or.inl hty)))))
    refine ⟨[some (sendTelegramMessage chat st).1],
      (sendTelegramMessage chat st).2, ?_, by simp,
      Or.inl (sendTelegramMessage_spec chat st).1, rfl, rfl⟩
    rw [sendConverted, hty, hp]
  case document =>
    obtain ⟨p, hp⟩ := popLast_of_ne_nil _
      (hmedia (Or.inr (Or.inr (Or.inr (Or.inr hty)))))
    refine ⟨[some (sendTelegramMessage chat st).1],
      (sendTelegramMessage chat st).2, ?_, by simp,
      Or.inl (sendTelegramMessage_spec chat st).1, rfl, rfl⟩
    rw [sendConverted, hty, hp]
  case location =>
    obtain ⟨v, hv⟩ := Option.ne_none_iff_exists'.mp (hloc hty)
    refine ⟨[some (sendTelegramMessage chat st).1],
      (sendTelegramMessage chat st).2, ?_, by simp,
      Or.inl (sendTelegramMessage_spec chat st).1, rfl, rfl⟩
    rw [sendConverted, hty, hv]

/-- The post-send bookkeeping only appends index submissions to the
trace and `Message` rows to the table, among them (for a non-empty
delivery list) one carrying the event's remote ids. -/
theorem saveDelivered_spec (rcid : Int) (mid : String) :
    ∀ (msgs : List TgMsg) (st : St),
      ∃ ds, (saveDelivered rcid mid msgs st).trace = st.trace ++ ds ∧
        (∀ a ∈ ds, ∃ x y, a = Action.indexDoc x y) ∧
        (saveDelivered rcid mid msgs st).remoteChatCache =
          st.remoteChatCache ∧
        (∀ m ∈ st.db.messages,
          m ∈ (saveDelivered rcid mid msgs st).db.messages) ∧
        (msgs ≠ [] →
          ∃ row ∈ (saveDelivered rcid mid msgs st).db.messages,
            row.remote_chat_id = rcid ∧ row.remote_msg_id = mid) := by
  intro msgs
  induction msgs with
  | nil =>
      intro st
      exact ⟨[], by simp [saveDelivered], by simp, rfl, fun m hm => hm,
        fun h => absurd rfl h⟩
  | cons m rest ih =>
      intro st
      have hstep : saveDelivered rcid mid (m :: rest) st =
          saveDelivered rcid mid rest
            (saveMessageByRemote rcid mid m (indexMessage m st)) := rfl
      obtain ⟨ds, htr, hidx, hcache, hsup, hrow⟩ :=
        ih (saveMessageByRemote rcid mid m (indexMessage m st))
      refine ⟨Action.indexDoc m.chat_id m.msg_id :: ds, ?_, ?_, ?_, ?_, ?_⟩
      · rw [hstep, htr]
        have h1 : (saveMessageByRemote rcid mid m (indexMessage m st)).trace =
            st.trace ++ [Action.indexDoc m.chat_id m.msg_id] := by
          simp [saveMessageByRemote, indexMessage, emit]
        rw [h1]
        simp
      · intro a ha
        rcases List.mem_cons.mp ha with h | h
        · exact ⟨m.chat_id, m.msg_id, h⟩
        · exact hidx a h
      · rw [hstep, hcache]
        simp [saveMessageByRemote, indexMessage, emit]
      · intro x hx
        rw [hstep]
        apply hsup
        have : x ∈ (saveMessageByRemote rcid mid m
            (indexMessage m st)).db.messages := by
          simp only [saveMessageByRemote, indexMessage, emit]
          exact List.mem_append_left _ hx
        exact this
      · intro _
        have hmem : ∃ row ∈ (saveMessageByRemote rcid mid m
            (indexMessage m st)).db.messages,
            row.remote_chat_id = rcid ∧ row.remote_msg_id = mid := by
          simp only [saveMessageByRemote, indexMessage, emit]
          exact ⟨_, List.mem_append_right _ (List.mem_singleton_self _),
            rfl, rfl⟩
        obtain ⟨row, hrowmem, h1, h2⟩ := hmem
        rw [hstep]
        exact ⟨row, hsup _ hrowmem, h1, h2⟩

/-- The initial loop accumulator satisfies the media invariant. -/
theorem initAcc_inv (replyTo : Option Int) : MediaInv (initAcc replyTo) := by
  constructor <;> intro hty <;> simp [initAcc] at hty

/-- One loop iteration preserves the media invariant. -/
theorem segStep_inv (env : Env) (ep : Endpoint) (msg : MessageEvent)
    (rc : RemoteChat) (db : Db) (acc : LoopAcc) (seg : Segment)
    (h : MediaInv acc) :
    ∀ r, segStep env ep msg rc db acc seg = Except.ok r → MediaInv r.1 := by
  intro r hs
  cases seg
  all_goals simp only [segStep] at hs
  all_goals repeat' split at hs
  all_goals try exact Except.noConfusion hs
  all_goals injection hs with h1
  all_goals rw [← h1]
  all_goals refine ⟨fun hty => ?_, fun hty => ?_⟩
  all_goals first
    | (simp; done)
    | exact h.1 hty
    | exact h.2 hty
    | (rcases hty with hty | hty | hty | hty | hty <;> simp at hty)

/-- The segment loop preserves the media invariant. -/
theorem segLoop_inv (env : Env) (ep : Endpoint) (msg : MessageEvent)
    (rc : RemoteChat) (db : Db) (segs : List Segment) :
    ∀ acc acc', MediaInv acc →
      segLoop env ep msg rc db acc segs = Except.ok acc' → MediaInv acc' := by
  induction segs with
  | nil =>
      intro acc acc' h hs
      simp only [segLoop] at hs
      injection hs with h1
      rw [← h1]
      exact h
  | cons s rest ih =>
      intro acc acc' h hs
      simp only [segLoop] at hs
      split at hs
      · injection hs
      · rename_i p heq
        injection hs with h1
        rw [← h1]
        exact segStep_inv env ep msg rc db acc s h _ heq
      · rename_i p heq
        exact ih _ acc' (segStep_inv env ep msg rc db acc s h _ heq) hs

/-- `fetch_chat_and_title` does not touch the `message` table, emits no
action, and never evicts a remote-chat cache entry. -/
theorem fetchChatAndTitle_frame (env : Env) (ep : Endpoint)
    (rc : RemoteChat) (sender : String) (st : St) :
    (fetchChatAndTitle env ep rc sender st).2.db.messages =
      st.db.messages ∧
    (fetchChatAndTitle env ep rc sender st).2.trace = st.trace ∧
    (∀ k v, st.remoteChatCache k = some v →
      (fetchChatAndTitle env ep rc sender st).2.remoteChatCache k =
        some v) := by
  have hgm := (getRemoteChat_db_frame env ep rc.chat_type rc.target_id st).2.2.2.1
  have hgt := (getRemoteChat_db_frame env ep rc.chat_type rc.target_id st).2.2.2.2.1
  unfold fetchChatAndTitle
  split
  · rename_i e st₁ heq
    have h1 : st₁ = (getRemoteChat env ep rc.chat_type rc.target_id st).2 :=
      (congrArg Prod.snd heq).symm
    refine ⟨by rw [h1]; exact hgm, by rw [h1]; exact hgt, ?_⟩
    intro k v hv
    rw [h1]
    exact getRemoteChat_cache_mono env ep rc.chat_type rc.target_id st k v hv
  · rename_i target st₁ heq
    have h1 : st₁ = (getRemoteChat env ep rc.chat_type rc.target_id st).2 :=
      (congrArg Prod.snd heq).symm
    have hm₁ : st₁.db.messages = st.db.messages := by rw [h1]; exact hgm
    have ht₁ : st₁.trace = st.trace := by rw [h1]; exact hgt
    have hc₁ : ∀ k v, st.remoteChatCache k = some v →
        st₁.remoteChatCache k = some v := by
      intro k v hv
      rw [h1]
      exact getRemoteChat_cache_mono env ep rc.chat_type rc.target_id st k v hv
    split
    · rename_i link hlink
      split
      · rename_i e st₂ htg
        have h2 : st₂ = (getTgChat env (packedTypeOfByte link.tg_chat_type)
            link.tg_chat_id st₁).2 := (congrArg Prod.snd htg).symm
        obtain ⟨hdb, htr, hcache, -⟩ :=
          getTgChat_frame env (packedTypeOfByte link.tg_chat_type)
            link.tg_chat_id st₁
        exact ⟨by rw [h2, hdb, hm₁], by rw [h2, htr, ht₁],
          fun k v hv => by rw [h2, hcache]; exact hc₁ k v hv⟩
      · rename_i chat st₂ htg
        have h2 : st₂ = (getTgChat env (packedTypeOfByte link.tg_chat_type)
            link.tg_chat_id st₁).2 := (congrArg Prod.snd htg).symm
        obtain ⟨hdb, htr, hcache, -⟩ :=
          getTgChat_frame env (packedTypeOfByte link.tg_chat_type)
            link.tg_chat_id st₁
        exact ⟨by rw [h2, hdb, hm₁], by rw [h2, htr, ht₁],
          fun k v hv => by rw [h2, hcache]; exact hc₁ k v hv⟩
    · split
      · rename_i archive harch
        split
        · rename_i e st₂ htopic
          have h2 : st₂ = (getOrCreateTopic env archive rc st₁).2 :=
            (congrArg Prod.snd htopic).symm
          obtain ⟨-, -, hmsg, -, htr, hcache, -⟩ :=
            getOrCreateTopic_frame env archive rc st₁
          exact ⟨by rw [h2, hmsg, hm₁], by rw [h2, htr, ht₁],
            fun k v hv => by rw [h2, hcache]; exact hc₁ k v hv⟩
        · rename_i topicId st₂ htopic
          have h2 : st₂ = (getOrCreateTopic env archive rc st₁).2 :=
            (congrArg Prod.snd htopic).symm
          obtain ⟨-, -, hmsg, -, htr₂, hcache₂, -⟩ :=
            getOrCreateTopic_frame env archive rc st₁
          have hm₂ : st₂.db.messages = st.db.messages := by
            rw [h2, hmsg, hm₁]
          have ht₂ : st₂.trace = st.trace := by rw [h2, htr₂, ht₁]
          have hc₂ : ∀ k v, st.remoteChatCache k = some v →
              st₂.remoteChatCache k = some v := by
            intro k v hv
            rw [h2, hcache₂]
            exact hc₁ k v hv
          split
          · rename_i e st₃ htg
            have h3 : st₃ = (getTgChat env PackedType.megagroup
                archive.tg_chat_id st₂).2 := (congrArg Prod.snd htg).symm
            obtain ⟨hdb, htr, hcache, -⟩ :=
              getTgChat_frame env PackedType.megagroup archive.tg_chat_id st₂
            exact ⟨by rw [h3, hdb, hm₂], by rw [h3, htr, ht₂],
              fun k v hv => by rw [h3, hcache]; exact hc₂ k v hv⟩
          · rename_i chat st₃ htg
            have h3 : st₃ = (getTgChat env PackedType.megagroup
                archive.tg_chat_id st₂).2 := (congrArg Prod.snd htg).symm
            obtain ⟨hdb, htr, hcache, -⟩ :=
              getTgChat_frame env PackedType.megagroup archive.tg_chat_id st₂
            exact ⟨by rw [h3, hdb, hm₂], by rw [h3, htr, ht₂],
              fun k v hv => by rw [h3, hcache]; exact hc₂ k v hv⟩
      · split
        · rename_i e st₂ htg
          have h2 : st₂ = (getTgChat env PackedType.user env.adminId st₁).2 :=
            (congrArg Prod.snd htg).symm
          obtain ⟨hdb, htr, hcache, -⟩ :=
            getTgChat_frame env PackedType.user env.adminId st₁
          exact ⟨by rw [h2, hdb, hm₁], by rw [h2, htr, ht₁],
            fun k v hv => by rw [h2, hcache]; exact hc₁ k v hv⟩
        · rename_i chat st₂ htg
          have h2 : st₂ = (getTgChat env PackedType.user env.adminId st₁).2 :=
            (congrArg Prod.snd htg).symm
          obtain ⟨hdb, htr, hcache, -⟩ :=
            getTgChat_frame env PackedType.user env.adminId st₁
          exact ⟨by rw [h2, hdb, hm₁], by rw [h2, htr, ht₁],
            fun k v hv => by rw [h2, hcache]; exact hc₁ k v hv⟩

/-- Every run of the message pipeline appends a guarded action suffix
with at most one Telegram send; when it does send, the event's mapping
and cached remote chat are in place afterwards, so a re-delivery is
dropped. -/
theorem processOnebotMessage_run (env : Env) (ep : Endpoint)
    (msg : MessageEvent) (st : St) :
    ∃ acts,
      (processOnebotMessage env ep msg st).2.trace = st.trace ++ acts ∧
      guardedActs acts = true ∧
      countSends acts ≤ 1 ∧
      (countSends acts = 1 →
        dedupReady ep msg (processOnebotMessage env ep msg st).2) := by
  unfold processOnebotMessage
  split
  · exact ⟨[], by simp, rfl, by decide,
      fun hcon => by simp [countSends] at hcon⟩
  · split
    · exact ⟨[], by simp, rfl, by decide,
        fun hcon => by simp [countSends] at hcon⟩
    · rename_i cid hcid
      split
      · rename_i e st₁ hgrc
        have h1 : st₁ = (getRemoteChat env ep msg.get_chat_type cid st).2 :=
          (congrArg Prod.snd hgrc).symm
        have ht₁ : st₁.trace = st.trace := by
          rw [h1]
          exact (getRemoteChat_db_frame env ep msg.get_chat_type cid
            st).2.2.2.2.1
        exact ⟨[], by simp [ht₁], rfl, by decide,
          fun hcon => by simp [countSends] at hcon⟩
      · rename_i rc st₁ hgrc
        have h1 : st₁ = (getRemoteChat env ep msg.get_chat_type cid st).2 :=
          (congrArg Prod.snd hgrc).symm
        have ht₁ : st₁.trace = st.trace := by
          rw [h1]
          exact (getRemoteChat_db_frame env ep msg.get_chat_type cid
            st).2.2.2.2.1
        split
        · exact ⟨[], by simp [ht₁], rfl, by decide,
            fun hcon => by simp [countSends] at hcon⟩
        · rename_i hnodup
          split
          · rename_i e st₂ hfetch
            have h2 : st₂ =
                (fetchChatAndTitle env ep rc msg.sender.display_name st₁).2 :=
              (congrArg Prod.snd hfetch).symm
            have ht₂ : st₂.trace = st.trace := by
              rw [h2, (fetchChatAndTitle_frame env ep rc
                msg.sender.display_name st₁).2.1, ht₁]
            exact ⟨[], by simp [ht₂], rfl, by decide,
              fun hcon => by simp [countSends] at hcon⟩
          · rename_i chat replyTo _title st₂ hfetch
            have h2 : st₂ =
                (fetchChatAndTitle env ep rc msg.sender.display_name st₁).2 :=
              (congrArg Prod.snd hfetch).symm
            have ht₂ : st₂.trace = st.trace := by
              rw [h2, (fetchChatAndTitle_frame env ep rc
                msg.sender.display_name st₁).2.1, ht₁]
            split
            · exact ⟨[], by simp [ht₂], rfl, by decide,
                fun hcon => by simp [countSends] at hcon⟩
            · rename_i acc hloop
              have hinv : MediaInv acc :=
                segLoop_inv env ep msg rc st₂.db msg.message
                  (initAcc replyTo) acc (initAcc_inv replyTo) hloop
              obtain ⟨ret', st₃', hsend, hne, htr3, hdb3, hcache3⟩ :=
                sendConverted_spec chat acc st₂ hinv
              split
              · rename_i e st₃ hsendE
                have hcon := hsend.symm.trans hsendE
                injection hcon with hx _
                exact Except.noConfusion hx
              · rename_i ret st₃ hsendOk
                have hcon := hsend.symm.trans hsendOk
                injection hcon with hx hy
                have hreq : ret' = ret := Except.ok.inj hx
                subst hreq
                subst hy
                obtain ⟨ds, hds, hdsIdx, hcache4, hsup4, hrow4⟩ :=
                  saveDelivered_spec rc.id msg.message_id
                    (ret'.filterMap id) st₃'
                have hcachekey :
                    st₃'.remoteChatCache (ep, msg.get_chat_type, cid) =
                      some rc := by
                  rw [hcache3, h2]
                  exact (fetchChatAndTitle_frame env ep rc
                    msg.sender.display_name st₁).2.2 _ _
                    (getRemoteChat_ok_cache env ep msg.get_chat_type cid
                      st rc st₁ hgrc)
                have hmapping :
                    findMessageByRemote (saveDelivered rc.id msg.message_id
                      (ret'.filterMap id) st₃').db.messages rc.id
                      msg.message_id ≠ none := by
                  obtain ⟨row, hrowmem, hr1, hr2⟩ := hrow4 hne
                  intro hnone
                  exact (List.find?_eq_none.mp hnone row hrowmem)
                    (by simp [hr1, hr2])
                rcases htr3 with htr3 | htr3
                · refine ⟨[Action.rateAcquire chat.chat_id,
                    Action.sendMessage chat.chat_id] ++ ds, ?_, ?_, ?_, ?_⟩
                  · rw [hds, htr3, ht₂, List.append_assoc]
                  · exact guardedActs_shape chat.chat_id _ ds (Or.inl rfl)
                      hdsIdx
                  · rw [countSends_append, countSends_indexOnly ds hdsIdx]
                    simp [countSends, isSendAction]
                  · intro _
                    exact ⟨cid, rc, hcid,
                      by rw [hcache4]; exact hcachekey, hmapping⟩
                · refine ⟨[Action.rateAcquire chat.chat_id,
                    Action.sendAlbum chat.chat_id] ++ ds, ?_, ?_, ?_, ?_⟩
                  · rw [hds, htr3, ht₂, List.append_assoc]
                  · exact guardedActs_shape chat.chat_id _ ds (Or.inr rfl)
                      hdsIdx
                  · rw [countSends_append, countSends_indexOnly ds hdsIdx]
                    simp [countSends, isSendAction]
                  · intro _
                    exact ⟨cid, rc, hcid,
                      by rw [hcache4]; exact hcachekey, hmapping⟩

/-- When the event's remote chat is cached and its mapping exists, the
pipeline drops the event without touching the state. -/
theorem processOnebotMessage_dedup (env : Env) (ep : Endpoint)
    (msg : MessageEvent) (st : St) (h : dedupReady ep msg st) :
    processOnebotMessage env ep msg st = (Except.ok (), st) := by
  obtain ⟨cid, rc, hcid, hcache, hmap⟩ := h
  unfold processOnebotMessage
  split
  · rfl
  · split
    · rename_i heq
      exact Option.noConfusion (hcid.symm.trans heq)
    · rename_i cid' hcid'
      have hceq : cid = cid' := Option.some.inj (hcid.symm.trans hcid')
      rw [← hceq] at *
      have hg : getRemoteChat env ep msg.get_chat_type cid st =
          (Except.ok rc, st) := by
        unfold getRemoteChat
        rw [hcache]
      split
      · rename_i e st₁ hgrc
        have hcon := hg.symm.trans hgrc
        injection hcon with hx _
        exact Except.noConfusion hx
      · rename_i rc' st₁ hgrc
        have hcon := hg.symm.trans hgrc
        injection hcon with hx hy
        have hrc : rc = rc' := Except.ok.inj hx
        split
        · rename_i row hrow
          rw [← hy]
        · rename_i hrownone
          rw [← hy, ← hrc] at hrownone
          exact absurd hrownone hmap

/-- Claim C4, amended: every outbound Telegram send performed by the
message-relay pipeline (`send_telegram_message` / `send_telegram_album`)
is immediately preceded by a token acquisition for the target chat from
the keyed limiter, whose configured quota is `TG_RATE_LIMIT − 1 = 19`
tokens per 60 seconds per chat; the recall-marker message of the notice
pipeline is sent directly through the client and bypasses the
limiter. -/
theorem c4_rate_limit (env : Env) (ep : Endpoint) (msg : MessageEvent)
    (st : St) :
    tgRateQuotaPerMinute = 19 ∧
    ∃ acts,
      (processOnebotMessage env ep msg st).2.trace = st.trace ++ acts ∧
      guardedActs acts = true := by
  obtain ⟨acts, h1, h2, -, -⟩ := processOnebotMessage_run env ep msg st
  exact ⟨rfl, acts, h1, h2⟩

/-- Claim C6: delivering the same remote message event to the
event-to-Telegram pipeline twice results in at most one Telegram send
in total — a `Message` row recorded by the first delivery makes the
second drop before any send. -/
theorem c6_redelivery_dedup (env : Env) (ep : Endpoint)
    (msg : MessageEvent) (st : St) :
    countSends (processOnebotMessage env ep msg
        (processOnebotMessage env ep msg st).2).2.trace ≤
      countSends st.trace + 1 := by
  obtain ⟨acts1, htr1, -, hle1, hded1⟩ := processOnebotMessage_run env ep msg st
  by_cases h1 : countSends acts1 = 1
  · have hready := hded1 h1
    have h2 := processOnebotMessage_dedup env ep msg _ hready
    rw [congrArg Prod.snd h2, htr1, countSends_append, h1]
  · have h0 : countSends acts1 = 0 := by omega
    obtain ⟨acts2, htr2, -, hle2, -⟩ :=
      processOnebotMessage_run env ep msg (processOnebotMessage env ep msg st).2
    rw [htr2, htr1, countSends_append, countSends_append, h0]
    omega

/-- The recall-target resolution touches no table other than
`remote_chat`, where it inserts at most one row, and emits no action. -/
theorem resolveRecall_frame (env : Env) (ep : Endpoint) (n : NoticeEvent)
    (st : St) :
    (resolveRecall env ep n st).2.db.messages = st.db.messages ∧
    (resolveRecall env ep n st).2.db.links = st.db.links ∧
    (resolveRecall env ep n st).2.db.archives = st.db.archives ∧
    (resolveRecall env ep n st).2.db.topics = st.db.topics ∧
    (resolveRecall env ep n st).2.trace = st.trace ∧
    ((resolveRecall env ep n st).2.db.remoteChats = st.db.remoteChats ∨
      ∃ r, (resolveRecall env ep n st).2.db.remoteChats =
        st.db.remoteChats ++ [r]) := by
  unfold resolveRecall
  split
  · rename_i e
    split
    · exact ⟨rfl, rfl, rfl, rfl, rfl, Or.inl rfl⟩
    · split
      · exact ⟨rfl, rfl, rfl, rfl, rfl, Or.inl rfl⟩
      · split
        · rename_i err st₁ heq
          have h1 : st₁ =
              (getRemoteChat env ep ChatType.private_ e.user_id st).2 :=
            (congrArg Prod.snd heq).symm
          obtain ⟨hl, ha, htp, hm, htr, -, -⟩ :=
            getRemoteChat_db_frame env ep ChatType.private_ e.user_id st
          refine ⟨by rw [h1]; exact hm, by rw [h1]; exact hl,
            by rw [h1]; exact ha, by rw [h1]; exact htp,
            by rw [h1]; exact htr, ?_⟩
          rw [h1]
          exact getRemoteChat_remoteChats env ep ChatType.private_ e.user_id st
        · rename_i rc st₁ heq
          have h1 : st₁ =
              (getRemoteChat env ep ChatType.private_ e.user_id st).2 :=
            (congrArg Prod.snd heq).symm
          obtain ⟨hl, ha, htp, hm, htr, -, -⟩ :=
            getRemoteChat_db_frame env ep ChatType.private_ e.user_id st
          refine ⟨by rw [h1]; exact hm, by rw [h1]; exact hl,
            by rw [h1]; exact ha, by rw [h1]; exact htp,
            by rw [h1]; exact htr, ?_⟩
          rw [h1]
          exact getRemoteChat_remoteChats env ep ChatType.private_ e.user_id st
  · rename_i e
    split
    · exact ⟨rfl, rfl, rfl, rfl, rfl, Or.inl rfl⟩
    · split
      · rename_i err st₁ heq
        have h1 : st₁ =
            (getRemoteChat env ep ChatType.group e.group_id st).2 :=
          (congrArg Prod.snd heq).symm
        obtain ⟨hl, ha, htp, hm, htr, -, -⟩ :=
          getRemoteChat_db_frame env ep ChatType.group e.group_id st
        refine ⟨by rw [h1]; exact hm, by rw [h1]; exact hl,
          by rw [h1]; exact ha, by rw [h1]; exact htp,
          by rw [h1]; exact htr, ?_⟩
        rw [h1]
        exact getRemoteChat_remoteChats env ep ChatType.group e.group_id st
      · rename_i rc st₁ heq
        have h1 : st₁ =
            (getRemoteChat env ep ChatType.group e.group_id st).2 :=
          (congrArg Prod.snd heq).symm
        obtain ⟨hl, ha, htp, hm, htr, -, -⟩ :=
          getRemoteChat_db_frame env ep ChatType.group e.group_id st
        refine ⟨by rw [h1]; exact hm, by rw [h1]; exact hl,
          by rw [h1]; exact ha, by rw [h1]; exact htp,
          by rw [h1]; exact htr, ?_⟩
        rw [h1]
        exact getRemoteChat_remoteChats env ep ChatType.group e.group_id st
  · exact ⟨rfl, rfl, rfl, rfl, rfl, Or.inl rfl⟩

/-- Claim C7, amended: handling a recall notice whose resolved message
mapping does not exist inserts and modifies no `message`, `link`,
`archive` or `topic` rows, sends nothing to Telegram, and changes the
`remote_chat` table only by possibly lazily inserting the row for the
recalled chat when it was not yet known. -/
theorem c7_recall_no_mapping (env : Env) (ep : Endpoint) (n : NoticeEvent)
    (st : St) (mid sender : String) (rc : RemoteChat) (stR : St)
    (hres : resolveRecall env ep n st =
      (Except.ok (some (mid, sender, rc)), stR))
    (hnomap : findMessageByRemote stR.db.messages rc.id mid = none) :
    processOnebotNotice env ep n st = (Except.ok (), stR) ∧
    stR.db.messages = st.db.messages ∧
    stR.db.links = st.db.links ∧
    stR.db.archives = st.db.archives ∧
    stR.db.topics = st.db.topics ∧
    stR.trace = st.trace ∧
    (stR.db.remoteChats = st.db.remoteChats ∨
      ∃ r, stR.db.remoteChats = st.db.remoteChats ++ [r]) := by
  have hframe := resolveRecall_frame env ep n st
  have hR : stR = (resolveRecall env ep n st).2 :=
    (congrArg Prod.snd hres).symm
  refine ⟨?_, by rw [hR]; exact hframe.1, by rw [hR]; exact hframe.2.1,
    by rw [hR]; exact hframe.2.2.1, by rw [hR]; exact hframe.2.2.2.1,
    by rw [hR]; exact hframe.2.2.2.2.1, by rw [hR]; exact hframe.2.2.2.2.2⟩
  unfold processOnebotNotice
  split
  · rename_i e st₁ heq
    have hcon := hres.symm.trans heq
    injection hcon with hx _
    exact Except.noConfusion hx
  · rename_i st₁ heq
    have hcon := hres.symm.trans heq
    injection hcon with hx _
    exact Option.noConfusion (Except.ok.inj hx)
  · rename_i mid' sender' rc' st₁ heq
    have hcon := hres.symm.trans heq
    injection hcon with hx hy
    have htup := Option.some.inj (Except.ok.inj hx)
    have hmid : mid = mid' := congrArg (fun t => t.1) htup
    have hsender : sender = sender' := congrArg (fun t => t.2.1) htup
    have hrc : rc = rc' := congrArg (fun t => t.2.2) htup
    split
    · rw [← hy]
    · rename_i row hrow
      rw [← hy, ← hrc, ← hmid] at hrow
      rw [hrow] at hnomap
      exact Option.noConfusion hnomap

/-- Witness for C7 at a concrete state: the bridge knows remote chat 1
but holds no mapping for message "777"; the recall resolves and the
handler leaves every table untouched (the remote chat was already
known). -/
theorem c7_recall_no_mapping_witness :
    processOnebotNotice cEnv epQQ cNotice cStKnownChat =
      (Except.ok (), (resolveRecall cEnv epQQ cNotice cStKnownChat).2) ∧
    (resolveRecall cEnv epQQ cNotice cStKnownChat).2.db.messages =
      cStKnownChat.db.messages ∧
    (resolveRecall cEnv epQQ cNotice cStKnownChat).2.db.links =
      cStKnownChat.db.links ∧
    (resolveRecall cEnv epQQ cNotice cStKnownChat).2.db.archives =
      cStKnownChat.db.archives ∧
    (resolveRecall cEnv epQQ cNotice cStKnownChat).2.db.topics =
      cStKnownChat.db.topics ∧
    (resolveRecall cEnv epQQ cNotice cStKnownChat).2.trace =
      cStKnownChat.trace ∧
    ((resolveRecall cEnv epQQ cNotice cStKnownChat).2.db.remoteChats =
        cStKnownChat.db.remoteChats ∨
      ∃ r, (resolveRecall cEnv epQQ cNotice cStKnownChat).2.db.remoteChats =
        cStKnownChat.db.remoteChats ++ [r]) :=
  c7_recall_no_mapping cEnv epQQ cNotice cStKnownChat "777" "A" cRc
    (resolveRecall cEnv epQQ cNotice cStKnownChat).2 rfl rfl

end Teleporter
